import Mathlib

/-!
# Overseer: event bus and subsystem lifecycle

A shallow embedding of `eventbus/event_bus.go`, `subsystem.go`, `overseer.go`,
`subsystem1.go`, `subsystem2.go` and `subsystem_library.go`.

Conventions of the embedding.

* A Go `any` value is an `Option α`: `none` is the nil interface, `some v` a
  non-nil value `v`.
* A callback `func(any)` is known to the bus only through its identity (the
  bus compares callbacks with `reflect.ValueOf`) and through the fact that it
  is invoked; it is a `Nat` identity, and an invocation is recorded as an
  `Effect.call`.
* A middleware stage `*func(string, any) any` is a non-nil pointer to a
  function of its two arguments.
* The registry `map[string][]*eventHandler` is a function from topics to
  `Option (List eventHandler)`: `none` is an absent key.
* `Publish` runs under the bus lock, so a call is one atomic step. A goroutine
  started with `go` is recorded as an `Effect.spawn`; what it does when it runs
  is `doPublishAsync`. The wait group and the per-handler mutex are not part
  of the state.
* The `uint32` flags of `BaseSubsystem` are natural numbers; only `0` and `1`
  are ever stored. A Go `error` is an `Option String`, `none` being `nil`.
* The hooks `OnStart`/`OnStop` of the wrapped implementation are represented by
  the value the hook returns if it is invoked, given with each call.
* The method `Call` of a subsystem is a function of the method name and the
  arguments.
* The method `Call` ends in one of four ways (`CallOutcome`): it returns, it
  panics with a value, it ends its goroutine with nothing to recover, or it
  never returns.
* A synchronous callback may panic when `Publish` calls it; `faults` tells
  which ones do, and `PublishFaulting` is `Publish` under it. A panic in a
  goroutine that nothing recovers ends the program (`crashed`).
* The handler of `SetupMethodRouting` and the goroutine it starts for `Call`
  are one step, `methodHandler`; it records the `Call` it makes and the
  responses it publishes. `SubsystemMethod` runs the goroutines that its
  `Publish` starts one after the other and receives the first value sent on
  its channel, if any.
-/

namespace eventbus

/-- Go `any`: `none` is the nil interface value. -/
abbrev Any (α : Type) := Option α

/-- The struct `eventHandler`. `callBack` is the identity of the callback. -/
structure eventHandler where
  callBack : Nat
  flagOnce : Bool
  async : Bool
  transactional : Bool
  deriving DecidableEq, Repr

/-- The struct `EventBus`: the middleware list and the handler registry. -/
structure EventBus (α : Type) where
  middleware : List (String → Any α → Any α)
  handlers : String → Option (List eventHandler)

/-- What a bus operation does besides changing the registry. -/
inductive Effect (α : Type) where
  /-- The call `handler.callBack(modData)`. -/
  | call (callBack : Nat) (arg : α)
  /-- The statement `go bus.doPublishAsync(handler, topic, data)`. -/
  | spawn (handler : eventHandler) (topic : String) (data : Any α)
  deriving DecidableEq, Repr

variable {α : Type}

/-- The function `New`: no middleware, an empty map. -/
def New : EventBus α :=
  { middleware := [], handlers := fun _ => none }

/-- The slice `bus.handlers[topic]`: the nil slice for an absent key. -/
def EventBus.slice (bus : EventBus α) (topic : String) : List eventHandler :=
  match bus.handlers topic with
  | some hs => hs
  | none => []

/-- The assignment `bus.handlers[topic] = hs`. -/
def EventBus.store (bus : EventBus α) (topic : String) (hs : List eventHandler) : EventBus α :=
  { bus with handlers := fun k => if k = topic then some hs else bus.handlers k }

/-- The statement `delete(bus.handlers, topic)`. -/
def EventBus.delete (bus : EventBus α) (topic : String) : EventBus α :=
  { bus with handlers := fun k => if k = topic then none else bus.handlers k }

/-- The method `doSubscribe`: append the handler to the topic's slice. -/
def doSubscribe (bus : EventBus α) (topic : String) (handler : eventHandler) :
    EventBus α × Option String :=
  (bus.store topic (bus.slice topic ++ [handler]), none)

/-- The method `AddMiddleware`. -/
def AddMiddleware (bus : EventBus α) (middleware : String → Any α → Any α) : EventBus α :=
  { bus with middleware := bus.middleware ++ [middleware] }

/-- The function `runMiddleware`: feed the output of each stage to the next. -/
def runMiddleware (middleware : List (String → Any α → Any α)) (topic : String)
    (input : Any α) : Any α :=
  middleware.foldl (fun output m => m topic output) input

/-- The method `Subscribe`. -/
def Subscribe (bus : EventBus α) (topic : String) (fn : Nat) : EventBus α × Option String :=
  doSubscribe bus topic ⟨fn, false, false, false⟩

/-- The method `SubscribeAsync`. -/
def SubscribeAsync (bus : EventBus α) (topic : String) (fn : Nat) (transactional : Bool) :
    EventBus α × Option String :=
  doSubscribe bus topic ⟨fn, false, true, transactional⟩

/-- The method `SubscribeOnce`. -/
def SubscribeOnce (bus : EventBus α) (topic : String) (fn : Nat) : EventBus α × Option String :=
  doSubscribe bus topic ⟨fn, true, false, false⟩

/-- The method `SubscribeOnceAsync`. -/
def SubscribeOnceAsync (bus : EventBus α) (topic : String) (fn : Nat) :
    EventBus α × Option String :=
  doSubscribe bus topic ⟨fn, true, true, false⟩

/-- The method `HasCallback`. -/
def HasCallback (bus : EventBus α) (topic : String) : Bool :=
  match bus.handlers topic with
  | some hs => decide (hs.length > 0)
  | none => false

/-- The method `removeHandler`. The `copy`, the nil store and the reslice
`[:l-1]` leave the elements before `idx` followed by those after it. -/
def removeHandler (bus : EventBus α) (topic : String) (idx : Int) : EventBus α :=
  match bus.handlers topic with
  | none => bus
  | some hs =>
    let l : Int := hs.length
    if ¬ (0 ≤ idx ∧ idx < l) then bus
    else
      let hs1 := hs.take idx.toNat ++ hs.drop (idx.toNat + 1)
      let bus1 := bus.store topic hs1
      if hs1.length = 0 then bus1.delete topic else bus1

/-- The method `findHandlerIdx`, on the slice: the first index whose callback
is `callback`, or `-1`. -/
def findIdxFrom (callback : Nat) : List eventHandler → Int → Int
  | [], _ => -1
  | handler :: rest, idx =>
    if handler.callBack = callback then idx else findIdxFrom callback rest (idx + 1)

/-- The method `findHandlerIdx`. -/
def findHandlerIdx (bus : EventBus α) (topic : String) (callback : Nat) : Int :=
  match bus.handlers topic with
  | some hs => findIdxFrom callback hs 0
  | none => -1

/-- The error value `fmt.Errorf("topic %s doesn't exist", topic)`. -/
def topicError (topic : String) : String :=
  "topic " ++ topic ++ " doesn't exist"

/-- The method `Unsubscribe`. -/
def Unsubscribe (bus : EventBus α) (topic : String) (handler : Nat) :
    EventBus α × Option String :=
  match bus.handlers topic with
  | some hs =>
    if hs.length > 0 then
      (removeHandler bus topic (findHandlerIdx bus topic handler), none)
    else (bus, some (topicError topic))
  | none => (bus, some (topicError topic))

/-- The loop `for i := 0; i < len(bus.handlers[topic]); i++` of
`UnsubscribeAll`, from the value `i`, for at most `fuel` iterations. -/
def unsubscribeAllLoop : Nat → EventBus α → String → Nat → EventBus α
  | 0, bus, _, _ => bus
  | fuel + 1, bus, topic, i =>
    if i < (bus.slice topic).length then
      unsubscribeAllLoop fuel (removeHandler bus topic i) topic (i + 1)
    else bus

/-- The method `UnsubscribeAll`. The loop gets as many iterations as the
slice is long: `unsubscribeAllLoop_fuel` shows it never needs more. -/
def UnsubscribeAll (bus : EventBus α) (topic : String) : EventBus α × Option String :=
  match bus.handlers topic with
  | some hs =>
    if hs.length > 0 then
      (unsubscribeAllLoop hs.length bus topic 0, none)
    else (bus, some (topicError topic))
  | none => (bus, some (topicError topic))

/-- The method `doPublish`: the callback is called with the result of the
pipeline unless that result is nil. -/
def doPublish (bus : EventBus α) (handler : eventHandler) (topic : String)
    (origData : Any α) : List (Effect α) :=
  match runMiddleware bus.middleware topic origData with
  | none => []
  | some modData => [Effect.call handler.callBack modData]

/-- The method `doPublishAsync`, the body of a spawned goroutine. -/
def doPublishAsync (bus : EventBus α) (handler : eventHandler) (topic : String)
    (data : Any α) : List (Effect α) :=
  doPublish bus handler topic data

/-- The loop `for i, handler := range copyHandlers` of `Publish`, from index
`i` with the rest of the snapshot. -/
def publishLoop (topic : String) (data : Any α) :
    List eventHandler → Nat → EventBus α → EventBus α × List (Effect α)
  | [], _, bus => (bus, [])
  | handler :: rest, i, bus =>
    let bus1 := if handler.flagOnce then removeHandler bus topic i else bus
    let eff :=
      if !handler.async then doPublish bus1 handler topic data
      else [Effect.spawn handler topic data]
    let r := publishLoop topic data rest (i + 1) bus1
    (r.1, eff ++ r.2)

/-- The method `Publish`. -/
def Publish (bus : EventBus α) (topic : String) (data : Any α) :
    EventBus α × List (Effect α) :=
  match bus.handlers topic with
  | some handlers =>
    if 0 < handlers.length then publishLoop topic data handlers 0 bus else (bus, [])
  | none => (bus, [])

/-- The callback invocations of a list of effects once every spawned
goroutine has run against `bus`: pairs of callback identity and argument. -/
def invocations (bus : EventBus α) : List (Effect α) → List (Nat × α)
  | [] => []
  | Effect.call cb v :: rest => (cb, v) :: invocations bus rest
  | Effect.spawn h topic data :: rest =>
    (doPublishAsync bus h topic data).filterMap
        (fun e => match e with
          | Effect.call cb v => some (cb, v)
          | Effect.spawn _ _ _ => none)
      ++ invocations bus rest

/-- The effects of subscribing the handlers of a list one after the other
with `doSubscribe`. -/
def subscribeAll (bus : EventBus α) (topic : String) (hs : List eventHandler) : EventBus α :=
  hs.foldl (fun b h => (doSubscribe b topic h).1) bus

/-- A call of one of the subscription methods of the bus. -/
inductive BusOp where
  | subscribe (topic : String) (fn : Nat)
  | subscribeAsync (topic : String) (fn : Nat) (transactional : Bool)
  | subscribeOnce (topic : String) (fn : Nat)
  | subscribeOnceAsync (topic : String) (fn : Nat)
  | unsubscribe (topic : String) (fn : Nat)
  deriving DecidableEq, Repr

/-- The bus after one call. -/
def BusOp.apply (bus : EventBus α) : BusOp → EventBus α
  | BusOp.subscribe topic fn => (Subscribe bus topic fn).1
  | BusOp.subscribeAsync topic fn transactional => (SubscribeAsync bus topic fn transactional).1
  | BusOp.subscribeOnce topic fn => (SubscribeOnce bus topic fn).1
  | BusOp.subscribeOnceAsync topic fn => (SubscribeOnceAsync bus topic fn).1
  | BusOp.unsubscribe topic fn => (Unsubscribe bus topic fn).1

/-- The bus after a sequence of calls, first call first. -/
def runOps (bus : EventBus α) (ops : List BusOp) : EventBus α :=
  ops.foldl BusOp.apply bus

/-- The live subscriptions of a topic as the specification counts them, by
callback: a subscription adds its callback, an `Unsubscribe` of a callback
that has a live subscription removes one of them, anything else changes
nothing. -/
def specLive (topic : String) (live : List Nat) : BusOp → List Nat
  | BusOp.subscribe t fn => if t = topic then live ++ [fn] else live
  | BusOp.subscribeAsync t fn _ => if t = topic then live ++ [fn] else live
  | BusOp.subscribeOnce t fn => if t = topic then live ++ [fn] else live
  | BusOp.subscribeOnceAsync t fn => if t = topic then live ++ [fn] else live
  | BusOp.unsubscribe t fn => if t = topic then live.erase fn else live

/-- The number of live handlers of a topic after a sequence of calls on an
empty bus, as the specification counts it: subscriptions made minus handlers
removed by a matching `Unsubscribe`. -/
def specLiveCount (topic : String) (ops : List BusOp) : Nat :=
  (ops.foldl (specLive topic) []).length

/-- The bus after `AddMiddleware` calls with the stages of a list, first
stage first. -/
def addMiddlewareAll (bus : EventBus α) (stages : List (String → Any α → Any α)) :
    EventBus α :=
  stages.foldl AddMiddleware bus

/-- The value `mk(t, ... m2(t, m1(t, p)) ...)`, for the stages given last
stage first: the outermost application is the one of the last stage. -/
def composedStages (topic : String) : List (String → Any α → Any α) → Any α → Any α
  | [], p => p
  | mk :: earlier, p => mk topic (composedStages topic earlier p)

/-- The left-to-right composition of the stages `[m1, ..., mk]` in the order of
registration, as the specification writes it: `mk(t, ... m1(t, p) ...)`. -/
def specPipeline (stages : List (String → Any α → Any α)) (topic : String) (p : Any α) :
    Any α :=
  composedStages topic stages.reverse p

/-- What a `Publish` leaves when a synchronous callback may panic: the bus,
the effects up to the panic, and the text of the value of the panic (`none`
when `Publish` returns). -/
structure PublishRun (α : Type) where
  bus : EventBus α
  effects : List (Effect α)
  panic : Option String

/-- The loop of `Publish` when synchronous callbacks may panic. `faults cb v`
is the text of the non-nil value with which the callback `cb` panics when it
is called with `v`, `none` when it returns. A panic leaves `Publish` at the
call (the deferred `Unlock` runs): the handlers after it in the snapshot are
neither removed nor dispatched. -/
def publishLoopFaulting (faults : Nat → α → Option String) (topic : String) (data : Any α) :
    List eventHandler → Nat → EventBus α → PublishRun α
  | [], _, bus => { bus := bus, effects := [], panic := none }
  | handler :: rest, i, bus =>
    let bus1 := if handler.flagOnce then removeHandler bus topic i else bus
    if !handler.async then
      match runMiddleware bus1.middleware topic data with
      | none => publishLoopFaulting faults topic data rest (i + 1) bus1
      | some modData =>
        match faults handler.callBack modData with
        | some v =>
          { bus := bus1, effects := [Effect.call handler.callBack modData], panic := some v }
        | none =>
          let r := publishLoopFaulting faults topic data rest (i + 1) bus1
          { r with effects := Effect.call handler.callBack modData :: r.effects }
    else
      let r := publishLoopFaulting faults topic data rest (i + 1) bus1
      { r with effects := Effect.spawn handler topic data :: r.effects }

/-- The method `Publish` when synchronous callbacks may panic; `Publish` is
the case in which none does. -/
def PublishFaulting (faults : Nat → α → Option String) (bus : EventBus α) (topic : String)
    (data : Any α) : PublishRun α :=
  match bus.handlers topic with
  | some handlers =>
    if 0 < handlers.length then publishLoopFaulting faults topic data handlers 0 bus
    else { bus := bus, effects := [], panic := none }
  | none => { bus := bus, effects := [], panic := none }

end eventbus

namespace overseer

/-- The struct `BaseSubsystem`: the three atomic flags and the state of the
channel `quit` (`true` once it is closed). -/
structure BaseSubsystem where
  name : String
  start : Nat
  started : Nat
  stopped : Nat
  quit : Bool
  deriving DecidableEq, Repr

/-- What a lifecycle call does besides changing the flags. -/
inductive Action where
  /-- The call `bs.impl.OnStart()`. -/
  | onStart
  /-- The call `bs.impl.OnStop()`. -/
  | onStop
  /-- The statement `close(bs.quit)`. -/
  | closeQuit
  deriving DecidableEq, Repr

/-- The function `NewBaseSubsystem`: all flags zero, the channel open. -/
def NewBaseSubsystem (name : String) : BaseSubsystem :=
  { name := name, start := 0, started := 0, stopped := 0, quit := false }

/-- The state after a call of `Start`, the two values it returns, and the
hooks it invoked. -/
structure StartResult where
  bs : BaseSubsystem
  ok : Bool
  err : Option String
  actions : List Action
  deriving DecidableEq, Repr

/-- The method `Start`. `onStart` is what `bs.impl.OnStart()` returns if this
call invokes it. -/
def BaseSubsystem.Start (bs : BaseSubsystem) (onStart : Option String) : StartResult :=
  if bs.start = 0 then
    let bs1 := { bs with start := 1 }
    if bs1.stopped = 1 then
      { bs := bs1, ok := false, err := none, actions := [] }
    else
      match onStart with
      | some err =>
        { bs := { bs1 with start := 0 }, ok := false, err := some err,
          actions := [Action.onStart] }
      | none =>
        { bs := { bs1 with started := 1 }, ok := true, err := none,
          actions := [Action.onStart] }
  else
    { bs := bs, ok := false, err := none, actions := [] }

/-- The state after a call of `Stop`, the value it returns, and what it did. -/
structure StopResult where
  bs : BaseSubsystem
  ok : Bool
  actions : List Action
  deriving DecidableEq, Repr

/-- The method `Stop`. `onStop` is what `bs.impl.OnStop()` returns if this
call invokes it; an error is logged only. -/
def BaseSubsystem.Stop (bs : BaseSubsystem) (_onStop : Option String) : StopResult :=
  if bs.stopped = 0 then
    { bs := { bs with stopped := 1, quit := true }, ok := true,
      actions := [Action.onStop, Action.closeQuit] }
  else
    { bs := bs, ok := false, actions := [] }

/-- The method `IsRunning`. -/
def BaseSubsystem.IsRunning (bs : BaseSubsystem) : Bool :=
  bs.started == 1 && bs.stopped == 0

/-- A call of `Start` or `Stop`, with what the hook returns if invoked. -/
inductive LifeCall where
  | start (onStart : Option String)
  | stop (onStop : Option String)
  deriving DecidableEq, Repr

/-- The state after one call. -/
def LifeCall.next (bs : BaseSubsystem) : LifeCall → BaseSubsystem
  | LifeCall.start r => (bs.Start r).bs
  | LifeCall.stop r => (bs.Stop r).bs

/-- What one call did. -/
def LifeCall.actions (bs : BaseSubsystem) : LifeCall → List Action
  | LifeCall.start r => (bs.Start r).actions
  | LifeCall.stop r => (bs.Stop r).actions

/-- The state after a sequence of calls, first call first. -/
def runCalls (bs : BaseSubsystem) (calls : List LifeCall) : BaseSubsystem :=
  calls.foldl LifeCall.next bs

/-- Everything a sequence of calls did, in order. -/
def runActions : BaseSubsystem → List LifeCall → List Action
  | _, [] => []
  | bs, c :: rest => LifeCall.actions bs c ++ runActions (LifeCall.next bs c) rest

/-- The values returned by the `Start` calls of a sequence, in order. -/
def runStarts : BaseSubsystem → List LifeCall → List (Bool × Option String)
  | _, [] => []
  | bs, LifeCall.start r :: rest =>
    ((bs.Start r).ok, (bs.Start r).err) :: runStarts (bs.Start r).bs rest
  | bs, LifeCall.stop r :: rest => runStarts (bs.Stop r).bs rest

/-- Whether a call is a call of `Stop`. -/
def LifeCall.isStop : LifeCall → Bool
  | LifeCall.start _ => false
  | LifeCall.stop _ => true

/-- A value handed to or returned by `Call` as `any`: a string, or some other
value known by a tag. -/
inductive Val where
  | str (s : String)
  | other (tag : Nat)
  deriving DecidableEq, Repr

/-- The struct `MethodRequest`. -/
structure MethodRequest where
  Caller : String
  Subsystem : String
  Method : String
  ID : String
  Data : List (eventbus.Any Val)
  deriving DecidableEq, Repr

/-- The zero value of `MethodRequest`, the field `Request` of a response that
does not set it. -/
def MethodRequest.zero : MethodRequest :=
  { Caller := "", Subsystem := "", Method := "", ID := "", Data := [] }

/-- The struct `MethodResponse`. -/
structure MethodResponse where
  Request : MethodRequest
  Error : Option String
  Data : eventbus.Any Val
  deriving DecidableEq, Repr

/-- A non-nil value published on the bus: a request, a response, or another
value. -/
inductive Payload where
  | request (r : MethodRequest)
  | response (r : MethodResponse)
  | val (v : Val)
  deriving DecidableEq, Repr

/-- How a call `Call(method, args...)` of a subsystem ends in the goroutine of
the router. -/
inductive CallOutcome where
  /-- The call returns `(data, err)`. -/
  | returns (data : eventbus.Any Val) (err : Option String)
  /-- The call panics and `recover` returns a non-nil value whose text (as `%v`
  prints it) is `v`. -/
  | panics (v : String)
  /-- The call ends its goroutine and `recover` returns nil: `runtime.Goexit`,
  or a panic with a nil value where `recover` returns nil for it. -/
  | exits
  /-- The call never returns. -/
  | blocks
  deriving DecidableEq, Repr

/-- A `*BaseSubsystem` of the registry: its lifecycle state and the method
`Call` of its field `impl`, to which `BaseSubsystem.Call` delegates. -/
structure Registered where
  bs : BaseSubsystem
  Call : String → List (eventbus.Any Val) → CallOutcome

/-- The struct `Overseer`: the map `Subsystems`. The bus it points to is
passed to the functions that use it. -/
structure Overseer where
  Subsystems : String → Option Registered

/-- The method `RegisterSubsystem`: the key is the name of the subsystem. -/
def Overseer.RegisterSubsystem (s : Overseer) (bs : Registered) : Overseer :=
  { Subsystems := fun k => if k = bs.bs.name then some bs else s.Subsystems k }

/-- The error of a resolution that used up its attempts: it records the error
of every attempt. -/
def retryError (errs : List String) : String :=
  "All attempts fail:" ++ String.join (errs.map (fun e => "\n" ++ e))

/-- Modelled from the spec: the loop of `retry.Do` of the library retry-go,
which is not part of the repository. `n` attempts are left, `k` were made and
failed with `errs`; the first attempt that succeeds ends the loop. -/
def retryLoop {β : Type} (f : Nat → Except String β) : Nat → Nat → List String → Except String β
  | 0, _, errs => Except.error (retryError errs)
  | n + 1, k, errs =>
    match f k with
    | Except.ok b => Except.ok b
    | Except.error e => retryLoop f n (k + 1) (errs ++ [e])

/-- Modelled from the spec: `retry.Do` of the library retry-go, which is not
part of the repository: a bounded retry policy. `f k` is the result of the
attempt number `k`, `attempts` the bound. -/
def retryDo {β : Type} (attempts : Nat) (f : Nat → Except String β) : Except String β :=
  retryLoop f attempts 0 []

/-- The function that the handler of `SetupMethodRouting` hands to `retry.Do`:
the subsystem must be in the registry and running. -/
def resolveOnce (s : Overseer) (subsystem : String) : Except String Registered :=
  match s.Subsystems subsystem with
  | none => Except.error ("could not find subsystem " ++ subsystem)
  | some bs =>
    if !bs.bs.IsRunning then Except.error ("subsystem " ++ subsystem ++ " is not running")
    else Except.ok bs

/-- The three places of the handler of `SetupMethodRouting` that publish a
response. -/
inductive PublishPoint where
  /-- After `retry.Do` returned an error. -/
  | resolutionFailure
  /-- After `Call` returned. -/
  | completion
  /-- In the deferred function, after `recover` returned a value. -/
  | recoveredFault
  deriving DecidableEq, Repr

/-- What the handler of `SetupMethodRouting` does. -/
inductive RouterEvent where
  /-- The call `baseSubsystem.Call(methodRequest.Method, methodRequest.Data...)`. -/
  | call (subsystem : String) (method : String) (args : List (eventbus.Any Val))
  /-- A call `s.eventBus.Publish(methodRequest.ID, resp)`. -/
  | publish (point : PublishPoint) (topic : String) (resp : MethodResponse)
  deriving DecidableEq, Repr

/-- The bus after a run of the handler of `SetupMethodRouting`, what the
handler did, the effects of its `Publish` calls, and whether a panic was left
unrecovered (which ends the program). -/
structure RouterRun where
  bus : eventbus.EventBus Payload
  events : List RouterEvent
  effects : List (eventbus.Effect Payload)
  crashed : Bool

/-- The handler that `SetupMethodRouting` subscribes to the topic "method",
with the goroutine it starts for `Call`. `faults` tells which synchronous
callbacks of the bus panic, `view k` is the overseer as the attempt number
`k` of the resolution finds it, `attempts` the bound of `retry.Do`, `data` the
value the handler is called with.

The `Publish` after a failed resolution runs outside any `recover`. In the
goroutine the deferred function covers `Call` and the `Publish` that follows
it: a panic of either makes it publish a further response, and a panic of
that last `Publish` is left unrecovered. When `Call` ends without returning
and without a value to recover, nothing is published. -/
def methodHandler (faults : Nat → Payload → Option String) (view : Nat → Overseer)
    (attempts : Nat) (bus : eventbus.EventBus Payload) (data : Payload) : RouterRun :=
  match data with
  | Payload.request methodRequest =>
    match retryDo attempts (fun k => resolveOnce (view k) methodRequest.Subsystem) with
    | Except.error err =>
      let p := eventbus.PublishFaulting faults bus methodRequest.ID
        (some (Payload.response
          { Request := MethodRequest.zero, Error := some err, Data := none }))
      { bus := p.bus,
        events := [RouterEvent.publish PublishPoint.resolutionFailure methodRequest.ID
          { Request := MethodRequest.zero, Error := some err, Data := none }],
        effects := p.effects,
        crashed := p.panic.isSome }
    | Except.ok baseSubsystem =>
      match baseSubsystem.Call methodRequest.Method methodRequest.Data with
      | CallOutcome.returns data err =>
        let p := eventbus.PublishFaulting faults bus methodRequest.ID
          (some (Payload.response { Request := methodRequest, Error := err, Data := data }))
        match p.panic with
        | none =>
          { bus := p.bus,
            events :=
              [RouterEvent.call methodRequest.Subsystem methodRequest.Method
                 methodRequest.Data,
               RouterEvent.publish PublishPoint.completion methodRequest.ID
                 { Request := methodRequest, Error := err, Data := data }],
            effects := p.effects,
            crashed := false }
        | some v =>
          let q := eventbus.PublishFaulting faults p.bus methodRequest.ID
            (some (Payload.response
              { Request := MethodRequest.zero, Error := some v, Data := none }))
          { bus := q.bus,
            events :=
              [RouterEvent.call methodRequest.Subsystem methodRequest.Method
                 methodRequest.Data,
               RouterEvent.publish PublishPoint.completion methodRequest.ID
                 { Request := methodRequest, Error := err, Data := data },
               RouterEvent.publish PublishPoint.recoveredFault methodRequest.ID
                 { Request := MethodRequest.zero, Error := some v, Data := none }],
            effects := p.effects ++ q.effects,
            crashed := q.panic.isSome }
      | CallOutcome.panics v =>
        let q := eventbus.PublishFaulting faults bus methodRequest.ID
          (some (Payload.response
            { Request := MethodRequest.zero, Error := some v, Data := none }))
        { bus := q.bus,
          events :=
            [RouterEvent.call methodRequest.Subsystem methodRequest.Method
               methodRequest.Data,
             RouterEvent.publish PublishPoint.recoveredFault methodRequest.ID
               { Request := MethodRequest.zero, Error := some v, Data := none }],
          effects := q.effects,
          crashed := q.panic.isSome }
      | CallOutcome.exits =>
        { bus := bus,
          events := [RouterEvent.call methodRequest.Subsystem methodRequest.Method
            methodRequest.Data],
          effects := [], crashed := false }
      | CallOutcome.blocks =>
        { bus := bus,
          events := [RouterEvent.call methodRequest.Subsystem methodRequest.Method
            methodRequest.Data],
          effects := [], crashed := false }
  | _ => { bus := bus, events := [], effects := [], crashed := false }

/-- The responses a run of the handler published, with the place and the
topic of each. -/
def RouterRun.published (r : RouterRun) : List (PublishPoint × String × MethodResponse) :=
  r.events.filterMap (fun e =>
    match e with
    | RouterEvent.publish point topic resp => some (point, topic, resp)
    | RouterEvent.call _ _ _ => none)

/-- The calls of `Call` a run of the handler made. -/
def RouterRun.calls (r : RouterRun) : List RouterEvent :=
  r.events.filter (fun e =>
    match e with
    | RouterEvent.publish _ _ _ => false
    | RouterEvent.call _ _ _ => true)

/-- The identity of the closure that `SetupMethodRouting` subscribes. -/
def routerCb : Nat := 0

/-- The identity of the closure that `AwaitTopic` subscribes, which sends what
it receives on the channel `ch` it has made. -/
def awaitCb (ch : Nat) : Nat := ch + 1

/-- The method `SetupMethodRouting`: an asynchronous, non-transactional
subscription to "method". -/
def SetupMethodRouting (bus : eventbus.EventBus Payload) : eventbus.EventBus Payload :=
  (eventbus.SubscribeAsync bus "method" routerCb false).1

/-- The function `AwaitTopic`: a once-asynchronous subscription whose callback
sends on the new channel `ch`. -/
def AwaitTopic (eventBus : eventbus.EventBus Payload) (topic : String) (ch : Nat) :
    eventbus.EventBus Payload :=
  (eventbus.SubscribeOnceAsync eventBus topic (awaitCb ch)).1

/-- The values sent on the channel `ch` by a list of callback invocations. -/
def sentOn (ch : Nat) (invs : List (Nat × Payload)) : List Payload :=
  invs.filterMap (fun x => if x.1 = awaitCb ch then some x.2 else none)

/-- Running the callbacks that a `Publish` invoked, in order: the closure of
the router runs `methodHandler`, which publishes on the bus; the result is the
bus afterwards, the invocations of all other callbacks, those caused by the
router included, and whether a run of the router left a panic unrecovered,
after which nothing more runs. -/
def runInvocations (faults : Nat → Payload → Option String) (view : Nat → Overseer)
    (attempts : Nat) :
    List (Nat × Payload) → eventbus.EventBus Payload →
      eventbus.EventBus Payload × List (Nat × Payload) × Bool
  | [], bus => (bus, [], false)
  | (cb, v) :: rest, bus =>
    if cb = routerCb then
      let r := methodHandler faults view attempts bus v
      if r.crashed then (r.bus, eventbus.invocations r.bus r.effects, true)
      else
        let q := runInvocations faults view attempts rest r.bus
        (q.1, eventbus.invocations r.bus r.effects ++ q.2.1, q.2.2)
    else
      let q := runInvocations faults view attempts rest bus
      (q.1, (cb, v) :: q.2.1, q.2.2)

/-- What `SubsystemMethod` returns, `none` when it does not return (the receive
`<-responseCh` never gets a value, its `Publish` panics, or the program
ends), the bus afterwards, the text of the value with which its `Publish`
panicked, and whether a run of the router left a panic unrecovered. -/
structure RpcResult where
  response : Option MethodResponse
  bus : eventbus.EventBus Payload
  panic : Option String
  crashed : Bool

/-- The function `SubsystemMethod`. `faults` tells which synchronous callbacks
of the bus panic; `nonce` is the text of the number that `rand.Int` returns,
`none` when it returns an error; `ch` is the channel that `AwaitTopic` makes.
The constant `SECP256k1GeneratorOrder` is a valid number, so its parse does
not fail. -/
def SubsystemMethod (faults : Nat → Payload → Option String) (view : Nat → Overseer)
    (attempts : Nat) (nonce : Option String) (ch : Nat)
    (eventBus : eventbus.EventBus Payload) (caller subsystem method : String)
    (data : List (eventbus.Any Val)) : RpcResult :=
  match nonce with
  | none =>
    { response := some { Request := MethodRequest.zero,
                         Error := some "could not generate random nonce", Data := none },
      bus := eventBus, panic := none, crashed := false }
  | some nonceStr =>
    let bus1 := AwaitTopic eventBus nonceStr ch
    let p := eventbus.PublishFaulting faults bus1 "method"
      (some (Payload.request { Caller := caller, Subsystem := subsystem, Method := method,
                               ID := nonceStr, Data := data }))
    let q := runInvocations faults view attempts (eventbus.invocations p.bus p.effects) p.bus
    match p.panic with
    | some v => { response := none, bus := q.1, panic := some v, crashed := q.2.2 }
    | none =>
      if q.2.2 then { response := none, bus := q.1, panic := none, crashed := true }
      else
        match sentOn ch q.2.1 with
        | [] => { response := none, bus := q.1, panic := none, crashed := false }
        | Payload.response methodResponse :: _ =>
          { response := some methodResponse, bus := q.1, panic := none, crashed := false }
        | _ :: _ =>
          { response := some { Request := MethodRequest.zero,
                               Error := some "method response was not of MethodResponse type",
                               Data := none },
            bus := q.1, panic := none, crashed := false }

/-- The result pair of the typed wrappers `Ping`, `PingSubsystem1` and
`ProcessActiveLeavesUpdate` for a response. -/
def unwrapResponse (methodResponse : MethodResponse) : eventbus.Any Val × Option String :=
  match methodResponse.Error with
  | some e => (none, some e)
  | none => (methodResponse.Data, none)

/-- The method `Subsystem1MethodsInstance.Ping`; `none` when `SubsystemMethod`
never gets a response. -/
def Subsystem1MethodsInstance.Ping (faults : Nat → Payload → Option String)
    (view : Nat → Overseer) (attempts : Nat) (nonce : Option String) (ch : Nat)
    (eventBus : eventbus.EventBus Payload) (owner : String)
    (message : String) : Option (eventbus.Any Val × Option String) :=
  (SubsystemMethod faults view attempts nonce ch eventBus owner "subsystem1" "ping"
    [some (Val.str message)]).response.map unwrapResponse

/-- The method `Subsystem2MethodsInstance.PingSubsystem1`; `none` when
`SubsystemMethod` never gets a response. -/
def Subsystem2MethodsInstance.PingSubsystem1 (faults : Nat → Payload → Option String)
    (view : Nat → Overseer) (attempts : Nat) (nonce : Option String) (ch : Nat)
    (eventBus : eventbus.EventBus Payload) (owner : String)
    (message : String) : Option (eventbus.Any Val × Option String) :=
  (SubsystemMethod faults view attempts nonce ch eventBus owner "subsystem2" "ping_subsystem1"
    [some (Val.str message)]).response.map unwrapResponse

/-- The method `Subsystem2MethodsInstance.ProcessActiveLeavesUpdate`. -/
def Subsystem2MethodsInstance.ProcessActiveLeavesUpdate
    (faults : Nat → Payload → Option String) (view : Nat → Overseer)
    (attempts : Nat) (nonce : Option String) (ch : Nat) (eventBus : eventbus.EventBus Payload)
    (owner : String) : Option (eventbus.Any Val × Option String) :=
  (SubsystemMethod faults view attempts nonce ch eventBus owner "subsystem2"
    "process_active_leaves_update" []).response.map unwrapResponse

/-- The method `Subsystem1.Call`. -/
def Subsystem1.Call (method : String) (_args : List (eventbus.Any Val)) : CallOutcome :=
  if method = "ping" then CallOutcome.returns (some (Val.str "pong")) none
  else CallOutcome.returns none (some "method not found")

/-- The method `Subsystem2.Call`. `ping` is the method `Ping` of
`t.subsystemLibrary.Subsystem1Methods()`, as a function of the message. -/
def Subsystem2.Call (ping : String → eventbus.Any Val × Option String) (method : String)
    (args : List (eventbus.Any Val)) : CallOutcome :=
  if method = "ping" then CallOutcome.returns (some (Val.str "pong")) none
  else if method = "ping_subsystem1" then
    match args with
    | [some (Val.str arg)] => CallOutcome.returns (ping arg).1 (ping arg).2
    | [_] => CallOutcome.returns none (some "invalid arg type")
    | _ => CallOutcome.returns none (some "invalid number of args")
  else if method = "process_active_leaves_update" then CallOutcome.returns none none
  else CallOutcome.returns none (some "method not found")

/-- A wrapper with the given name whose `Start` has succeeded. -/
def startedSubsystem (name : String) : BaseSubsystem :=
  ((NewBaseSubsystem name).Start none).bs

/-- The overseer of `TestSubsystemLibrary` once both subsystems are started:
`NewOverseer` with subsystem1 and subsystem2. -/
def testOverseer (ping : String → eventbus.Any Val × Option String) : Overseer :=
  (Overseer.RegisterSubsystem
    (Overseer.RegisterSubsystem { Subsystems := fun _ => none }
      { bs := startedSubsystem "subsystem1", Call := Subsystem1.Call })
    { bs := startedSubsystem "subsystem2", Call := Subsystem2.Call ping })

/-- The constant `ErrorEvent`. -/
def ErrorEvent : String := "error"

/-- The constant `StartEvent`. -/
def StartEvent : String := "start"

/-- The constant `StopEvent`. -/
def StopEvent : String := "stop"

/-- What a hook of a subsystem leaves: the bus, the effects of its `Publish`,
and the error it returns. -/
structure HookRun where
  bus : eventbus.EventBus Payload
  effects : List (eventbus.Effect Payload)
  err : Option String

/-- The method `Subsystem1.OnStart`: it publishes nil on "subsystem1:start" and
returns nil. The goroutine it starts blocks on an empty `select`. -/
def Subsystem1.OnStart (eventBus : eventbus.EventBus Payload) : HookRun :=
  { bus := (eventbus.Publish eventBus ("subsystem1:" ++ StartEvent) none).1,
    effects := (eventbus.Publish eventBus ("subsystem1:" ++ StartEvent) none).2,
    err := none }

/-- The method `Subsystem1.OnStop`: after `t.cancel()` it publishes nil on
"subsystem1:error" and returns nil. -/
def Subsystem1.OnStop (eventBus : eventbus.EventBus Payload) : HookRun :=
  { bus := (eventbus.Publish eventBus ("subsystem1:" ++ ErrorEvent) none).1,
    effects := (eventbus.Publish eventBus ("subsystem1:" ++ ErrorEvent) none).2,
    err := none }

/-- The method `Subsystem2.OnStart`: it publishes nil on "subsystem2:start" and
returns nil. -/
def Subsystem2.OnStart (eventBus : eventbus.EventBus Payload) : HookRun :=
  { bus := (eventbus.Publish eventBus ("subsystem2:" ++ StartEvent) none).1,
    effects := (eventbus.Publish eventBus ("subsystem2:" ++ StartEvent) none).2,
    err := none }

/-- The method `Subsystem2.OnStop`: after `t.cancel()` it publishes nil on
"subsystem2:error" and returns nil. -/
def Subsystem2.OnStop (eventBus : eventbus.EventBus Payload) : HookRun :=
  { bus := (eventbus.Publish eventBus ("subsystem2:" ++ ErrorEvent) none).1,
    effects := (eventbus.Publish eventBus ("subsystem2:" ++ ErrorEvent) none).2,
    err := none }

end overseer

/-!
## Theorems

First the registry (`removeHandler`, `Unsubscribe`, `UnsubscribeAll`), then
`Publish`, then the lifecycle of `BaseSubsystem`, then the router of the
overseer and the calls made through it.
-/

namespace eventbus
variable {α : Type}

@[simp] theorem store_handlers_same (bus : EventBus α) (topic : String) (hs : List eventHandler) :
    (bus.store topic hs).handlers topic = some hs := by
  simp [EventBus.store]

theorem store_handlers_other (bus : EventBus α) (topic k : String) (hs : List eventHandler)
    (hk : k ≠ topic) : (bus.store topic hs).handlers k = bus.handlers k := by
  simp [EventBus.store, hk]

@[simp] theorem store_middleware (bus : EventBus α) (topic : String) (hs : List eventHandler) :
    (bus.store topic hs).middleware = bus.middleware := rfl

@[simp] theorem delete_handlers_same (bus : EventBus α) (topic : String) :
    (bus.delete topic).handlers topic = none := by
  simp [EventBus.delete]

theorem delete_handlers_other (bus : EventBus α) (topic k : String) (hk : k ≠ topic) :
    (bus.delete topic).handlers k = bus.handlers k := by
  simp [EventBus.delete, hk]

@[simp] theorem delete_middleware (bus : EventBus α) (topic : String) :
    (bus.delete topic).middleware = bus.middleware := rfl

theorem slice_of_some (bus : EventBus α) (topic : String) (hs : List eventHandler)
    (h : bus.handlers topic = some hs) : bus.slice topic = hs := by
  simp [EventBus.slice, h]

theorem slice_of_none (bus : EventBus α) (topic : String)
    (h : bus.handlers topic = none) : bus.slice topic = [] := by
  simp [EventBus.slice, h]

/-- `HasCallback` is the test `len(bus.handlers[topic]) > 0`. -/
theorem HasCallback_eq_slice (bus : EventBus α) (topic : String) :
    HasCallback bus topic = decide (0 < (bus.slice topic).length) := by
  unfold HasCallback EventBus.slice
  cases bus.handlers topic <;> simp

@[simp] theorem removeHandler_middleware (bus : EventBus α) (topic : String) (idx : Int) :
    (removeHandler bus topic idx).middleware = bus.middleware := by
  unfold removeHandler
  split
  · rfl
  · dsimp only
    split
    · rfl
    · split <;> rfl

theorem removeHandler_other (bus : EventBus α) (topic k : String) (idx : Int) (hk : k ≠ topic) :
    (removeHandler bus topic idx).handlers k = bus.handlers k := by
  unfold removeHandler
  split
  · rfl
  · dsimp only
    split
    · rfl
    · split
      · rw [delete_handlers_other _ _ _ hk, store_handlers_other _ _ _ _ hk]
      · rw [store_handlers_other _ _ _ _ hk]

/-- An index outside the slice leaves the bus as it is. -/
theorem removeHandler_out_of_range (bus : EventBus α) (topic : String) (idx : Int)
    (h : ¬ (0 ≤ idx ∧ idx < ((bus.slice topic).length : Int))) :
    removeHandler bus topic idx = bus := by
  unfold removeHandler
  cases hh : bus.handlers topic with
  | none => rfl
  | some hs =>
    rw [slice_of_some bus topic hs hh] at h
    simp only [h, not_false_eq_true, if_true]

/-- An index inside the slice removes that element; the key is deleted when
nothing is left. -/
theorem removeHandler_in_range (bus : EventBus α) (topic : String) (i : Nat)
    (hs : List eventHandler) (hh : bus.handlers topic = some hs) (hi : i < hs.length) :
    (removeHandler bus topic (i : Int)).handlers topic =
      if hs.eraseIdx i = [] then none else some (hs.eraseIdx i) := by
  unfold removeHandler
  have hr : (0 : Int) ≤ (i : Int) ∧ (i : Int) < ((hs.length : Nat) : Int) :=
    ⟨Int.ofNat_nonneg i, by exact_mod_cast hi⟩
  simp only [hh, hr, and_self, not_true_eq_false, if_false, Int.toNat_ofNat,
    List.length_eq_zero]
  rw [← List.eraseIdx_eq_take_drop_succ]
  split <;> simp

theorem removeHandler_slice (bus : EventBus α) (topic : String) (i : Nat) :
    (removeHandler bus topic (i : Int)).slice topic = (bus.slice topic).eraseIdx i := by
  cases hh : bus.handlers topic with
  | none =>
    have : removeHandler bus topic (i : Int) = bus := by
      unfold removeHandler; simp [hh]
    rw [this, slice_of_none bus topic hh]; rfl
  | some hs =>
    rw [slice_of_some bus topic hs hh]
    by_cases hi : i < hs.length
    · have := removeHandler_in_range bus topic i hs hh hi
      unfold EventBus.slice
      rw [this]
      by_cases he : hs.eraseIdx i = []
      · rw [if_pos he, he]
      · rw [if_neg he]
    · have hout : ¬ (0 ≤ (i : Int) ∧ (i : Int) < ((bus.slice topic).length : Int)) := by
        rw [slice_of_some bus topic hs hh]
        intro h
        exact hi (by exact_mod_cast h.2)
      rw [removeHandler_out_of_range bus topic _ hout, slice_of_some bus topic hs hh]
      rw [List.eraseIdx_of_length_le (Nat.le_of_not_lt hi)]

theorem removeHandler_slice_length_le (bus : EventBus α) (topic : String) (i : Nat) :
    ((removeHandler bus topic (i : Int)).slice topic).length ≤ (bus.slice topic).length := by
  rw [removeHandler_slice]
  exact (List.eraseIdx_sublist _ _).length_le

theorem removeHandler_slice_length (bus : EventBus α) (topic : String) (i : Nat)
    (hi : i < (bus.slice topic).length) :
    ((removeHandler bus topic (i : Int)).slice topic).length + 1 = (bus.slice topic).length := by
  rw [removeHandler_slice, List.length_eraseIdx, if_pos hi]
  omega

/-- The loop of `UnsubscribeAll` leaves by its own test before the fuel runs
out: with as many iterations as the slice is long beyond `i`, any further
fuel changes nothing. -/
theorem unsubscribeAllLoop_fuel (fuel k : Nat) (bus : EventBus α) (topic : String) (i : Nat)
    (h : (bus.slice topic).length ≤ i + fuel) :
    unsubscribeAllLoop (fuel + k) bus topic i = unsubscribeAllLoop fuel bus topic i := by
  induction fuel generalizing bus i with
  | zero =>
    cases k with
    | zero => rfl
    | succ k =>
      have hlt : ¬ i < (bus.slice topic).length := by omega
      simp only [Nat.zero_add, unsubscribeAllLoop, hlt, if_false]
  | succ fuel ih =>
    have e : fuel + 1 + k = (fuel + k) + 1 := by omega
    rw [e]
    simp only [unsubscribeAllLoop]
    by_cases hlt : i < (bus.slice topic).length
    · rw [if_pos hlt, if_pos hlt]
      apply ih
      have := removeHandler_slice_length bus topic i hlt
      omega
    · rw [if_neg hlt, if_neg hlt]

/-- C1 (the code at the failing input): on a topic with exactly two live
handlers `a` and `b`, `UnsubscribeAll` returns no error but removes only `a`:
the loop index advances while the slice shrinks, so `b` stays registered and
`HasCallback` is still true. -/
theorem UnsubscribeAll_two_handlers_keeps_second (bus : EventBus α) (topic : String)
    (a b : eventHandler) :
    (UnsubscribeAll (bus.store topic [a, b]) topic).2 = none ∧
    (UnsubscribeAll (bus.store topic [a, b]) topic).1.handlers topic = some [b] ∧
    HasCallback (UnsubscribeAll (bus.store topic [a, b]) topic).1 topic = true := by
  have h : (UnsubscribeAll (bus.store topic [a, b]) topic).1.handlers topic = some [b] := by
    simp [UnsubscribeAll, unsubscribeAllLoop, EventBus.slice, removeHandler, EventBus.store]
  refine ⟨?_, h, ?_⟩
  · simp [UnsubscribeAll]
  · simp [HasCallback, h]

/-- C2 (the code at the failing input): two once-handlers `f` and `g` are
registered on a topic of a new bus, with `SubscribeOnce` or with
`SubscribeOnceAsync`. The first `Publish` dispatches both but removes only
the first from the registry (the second removal uses the index in the
snapshot, which is past the end of the shortened slice), so the second
`Publish` dispatches the handler of `g` a second time. -/
theorem Publish_second_once_handler_dispatched_twice (topic : String) (f g : Nat) (d1 d2 : α) :
    (Publish (SubscribeOnce (SubscribeOnce New topic f).1 topic g).1 topic (some d1)).2
        = [Effect.call f d1, Effect.call g d1] ∧
    (Publish (SubscribeOnce (SubscribeOnce New topic f).1 topic g).1 topic (some d1)).1.handlers
        topic = some [⟨g, true, false, false⟩] ∧
    (Publish (Publish (SubscribeOnce (SubscribeOnce New topic f).1 topic g).1 topic
        (some d1)).1 topic (some d2)).2 = [Effect.call g d2] ∧
    (Publish (SubscribeOnceAsync (SubscribeOnceAsync New topic f).1 topic g).1 topic
        (some d1)).2
        = [Effect.spawn ⟨f, true, true, false⟩ topic (some d1),
           Effect.spawn ⟨g, true, true, false⟩ topic (some d1)] ∧
    (Publish (Publish (SubscribeOnceAsync (SubscribeOnceAsync New topic f).1 topic g).1 topic
        (some d1)).1 topic (some d2)).2
        = [Effect.spawn ⟨g, true, true, false⟩ topic (some d2)] := by
  simp [Publish, publishLoop, SubscribeOnce, SubscribeOnceAsync, doSubscribe, New,
    EventBus.slice, EventBus.store, EventBus.delete, removeHandler, doPublish, runMiddleware]

/-- C3 (the code at the failing input): on a topic whose live handlers are two
once-handlers `f`, `g` followed by a persistent handler `p`, one `Publish`
leaves the once-handler of `g` registered and removes the persistent handler
of `p`: the removal for `g` uses its index in the snapshot, which in the
shortened slice is the position of `p`. -/
theorem Publish_removes_persistent_handler (topic : String) (f g p : Nat) (data : Any α) :
    (Subscribe (SubscribeOnce (SubscribeOnce (New : EventBus α) topic f).1 topic g).1
        topic p).1.handlers topic
      = some [⟨f, true, false, false⟩, ⟨g, true, false, false⟩, ⟨p, false, false, false⟩] ∧
    (Publish (Subscribe (SubscribeOnce (SubscribeOnce New topic f).1 topic g).1 topic p).1
        topic data).1.handlers topic = some [⟨g, true, false, false⟩] := by
  simp [Publish, publishLoop, Subscribe, SubscribeOnce, doSubscribe, New,
    EventBus.slice, EventBus.store, EventBus.delete, removeHandler]

theorem publishLoop_middleware (topic : String) (data : Any α) (snap : List eventHandler)
    (i : Nat) (bus : EventBus α) :
    (publishLoop topic data snap i bus).1.middleware = bus.middleware := by
  induction snap generalizing i bus with
  | nil => rfl
  | cons h rest ih =>
    simp only [publishLoop]
    rw [ih]
    split <;> simp

theorem publishLoop_other (topic k : String) (data : Any α) (snap : List eventHandler)
    (i : Nat) (bus : EventBus α) (hk : k ≠ topic) :
    (publishLoop topic data snap i bus).1.handlers k = bus.handlers k := by
  induction snap generalizing i bus with
  | nil => rfl
  | cons h rest ih =>
    simp only [publishLoop]
    rw [ih]
    split
    · exact removeHandler_other bus topic k _ hk
    · rfl

/-- The effects of the loop of `Publish` depend on the snapshot and on the
result of the pipeline only, not on what the loop removes from the registry. -/
theorem publishLoop_effects (topic : String) (data : Any α) (snap : List eventHandler)
    (i : Nat) (bus : EventBus α) :
    (publishLoop topic data snap i bus).2 =
      snap.flatMap (fun h =>
        if h.async then [Effect.spawn h topic data]
        else match runMiddleware bus.middleware topic data with
          | none => []
          | some v => [Effect.call h.callBack v]) := by
  induction snap generalizing i bus with
  | nil => rfl
  | cons h rest ih =>
    simp only [publishLoop, List.flatMap_cons]
    rw [ih]
    have hm : (if h.flagOnce = true then removeHandler bus topic ↑i else bus).middleware
        = bus.middleware := by
      split <;> simp
    rw [hm]
    cases h.async <;> simp [doPublish, hm]

theorem Publish_effects (bus : EventBus α) (topic : String) (data : Any α) :
    (Publish bus topic data).2 =
      (bus.slice topic).flatMap (fun h =>
        if h.async then [Effect.spawn h topic data]
        else match runMiddleware bus.middleware topic data with
          | none => []
          | some v => [Effect.call h.callBack v]) := by
  unfold Publish EventBus.slice
  cases hh : bus.handlers topic with
  | none => rfl
  | some hs =>
    dsimp only
    by_cases hl : 0 < hs.length
    · rw [if_pos hl, publishLoop_effects]
    · rw [if_neg hl]
      have : hs = [] := List.eq_nil_of_length_eq_zero (by omega)
      subst this
      rfl

theorem subscribeAll_slice (bus : EventBus α) (topic : String) (hs : List eventHandler) :
    (subscribeAll bus topic hs).slice topic = bus.slice topic ++ hs := by
  induction hs generalizing bus with
  | nil => simp [subscribeAll]
  | cons h rest ih =>
    have e : subscribeAll bus topic (h :: rest)
        = subscribeAll (doSubscribe bus topic h).1 topic rest := rfl
    rw [e, ih]
    simp [doSubscribe, EventBus.slice]

theorem subscribeAll_middleware (bus : EventBus α) (topic : String) (hs : List eventHandler) :
    (subscribeAll bus topic hs).middleware = bus.middleware := by
  induction hs generalizing bus with
  | nil => rfl
  | cons h rest ih =>
    have e : subscribeAll bus topic (h :: rest)
        = subscribeAll (doSubscribe bus topic h).1 topic rest := rfl
    rw [e, ih]
    rfl

/-- C4: on a topic without live handlers, register the synchronous handlers
`hs` (persistent or once) one after the other with `doSubscribe`. If the
pipeline gives the non-nil value `v` for the payload, `Publish` calls the
callbacks of `hs`, each once, in the order of registration, with `v`; the
calls are made by `Publish` itself (none is handed to a goroutine). -/
theorem Publish_sync_handlers_in_registration_order (bus : EventBus α) (topic : String)
    (hs : List eventHandler) (data : Any α) (v : α)
    (hempty : HasCallback bus topic = false)
    (hsync : ∀ h ∈ hs, h.async = false)
    (hmw : runMiddleware bus.middleware topic data = some v) :
    (Publish (subscribeAll bus topic hs) topic data).2
      = hs.map (fun h => Effect.call h.callBack v) := by
  have h0 : bus.slice topic = [] := by
    rw [HasCallback_eq_slice] at hempty
    exact List.eq_nil_of_length_eq_zero (by simpa using hempty)
  rw [Publish_effects, subscribeAll_slice, subscribeAll_middleware, h0, hmw, List.nil_append]
  induction hs with
  | nil => rfl
  | cons h rest ih =>
    rw [List.flatMap_cons, List.map_cons, ih (fun x hx => hsync x (List.mem_cons_of_mem _ hx))]
    simp [hsync h (List.mem_cons_self _ _)]

theorem Publish_sync_handlers_in_registration_order_witness :
    (Publish (subscribeAll (New : EventBus Nat) "t"
        [⟨1, false, false, false⟩, ⟨2, true, false, false⟩, ⟨3, false, false, false⟩])
        "t" (some 7)).2
      = [Effect.call 1 7, Effect.call 2 7, Effect.call 3 7] :=
  Publish_sync_handlers_in_registration_order New "t"
    [⟨1, false, false, false⟩, ⟨2, true, false, false⟩, ⟨3, false, false, false⟩]
    (some 7) 7 (by decide) (by decide) (by decide)

/-- C5: `Unsubscribe` returns the error "topic ... doesn't exist" exactly when
the topic has no live handler, and no error exactly when it has one, whether
or not a handler matches; when it returns the error the bus is unchanged. -/
theorem Unsubscribe_error_iff_no_live_handler (bus : EventBus α) (topic : String)
    (handler : Nat) :
    ((Unsubscribe bus topic handler).2 = some (topicError topic)
        ↔ HasCallback bus topic = false) ∧
    ((Unsubscribe bus topic handler).2 = none ↔ HasCallback bus topic = true) ∧
    ((Unsubscribe bus topic handler).2 ≠ none → (Unsubscribe bus topic handler).1 = bus) := by
  unfold Unsubscribe HasCallback
  cases hh : bus.handlers topic with
  | none => simp
  | some hs =>
    by_cases hl : hs.length > 0
    · simp [hl]
    · simp [hl]

theorem Unsubscribe_error_iff_no_live_handler_witness :
    (Unsubscribe (New : EventBus Nat) "t" 1).2 = some "topic t doesn't exist" ∧
    (Unsubscribe (New : EventBus Nat) "t" 1).1 = New ∧
    (Unsubscribe (Subscribe (New : EventBus Nat) "t" 1).1 "t" 2).2 = none :=
  ⟨by decide,
   (Unsubscribe_error_iff_no_live_handler New "t" 1).2.2 (by decide),
   (Unsubscribe_error_iff_no_live_handler (Subscribe New "t" 1).1 "t" 2).2.1.2 (by decide)⟩

theorem findIdxFrom_of_no_match (callback : Nat) (hs : List eventHandler) (k : Int)
    (h : ∀ y ∈ hs, y.callBack ≠ callback) : findIdxFrom callback hs k = -1 := by
  induction hs generalizing k with
  | nil => rfl
  | cons x rest ih =>
    have hx : x.callBack ≠ callback := h x (List.mem_cons_self _ _)
    simp only [findIdxFrom, hx, if_false]
    exact ih _ (fun y hy => h y (List.mem_cons_of_mem _ hy))

theorem findIdxFrom_of_first_match (callback : Nat) (l1 l2 : List eventHandler)
    (x : eventHandler) (k : Int)
    (h1 : ∀ y ∈ l1, y.callBack ≠ callback) (hx : x.callBack = callback) :
    findIdxFrom callback (l1 ++ x :: l2) k = k + (l1.length : Int) := by
  induction l1 generalizing k with
  | nil => simp [findIdxFrom, hx]
  | cons a rest ih =>
    have ha : a.callBack ≠ callback := h1 a (List.mem_cons_self _ _)
    rw [List.cons_append, findIdxFrom, if_neg ha,
      ih _ (fun y hy => h1 y (List.mem_cons_of_mem _ hy))]
    simp only [List.length_cons, Nat.cast_add, Nat.cast_one]
    ring

theorem eraseIdx_append_cons (l1 l2 : List eventHandler) (x : eventHandler) :
    (l1 ++ x :: l2).eraseIdx l1.length = l1 ++ l2 := by
  induction l1 with
  | nil => rfl
  | cons a rest ih => simp [List.eraseIdx, ih]

/-- C6: when the topic has live handlers, `Unsubscribe` removes the first
handler, in the order of registration, whose callback is the given one and
nothing else: the handlers before it and after it stay in their order (the
key is deleted when none is left), the other topics and the middleware list
are untouched. When no handler of the topic has that callback, the bus is
unchanged. -/
theorem Unsubscribe_removes_first_match (bus : EventBus α) (topic : String) (handler : Nat) :
    (∀ (l1 l2 : List eventHandler) (x : eventHandler),
        bus.handlers topic = some (l1 ++ x :: l2) →
        (∀ y ∈ l1, y.callBack ≠ handler) → x.callBack = handler →
        (Unsubscribe bus topic handler).1.handlers topic
            = (if l1 ++ l2 = [] then none else some (l1 ++ l2)) ∧
        (Unsubscribe bus topic handler).1.slice topic = l1 ++ l2 ∧
        (∀ k, k ≠ topic → (Unsubscribe bus topic handler).1.handlers k = bus.handlers k) ∧
        (Unsubscribe bus topic handler).1.middleware = bus.middleware ∧
        (Unsubscribe bus topic handler).2 = none) ∧
    (∀ hs : List eventHandler, bus.handlers topic = some hs → hs ≠ [] →
        (∀ y ∈ hs, y.callBack ≠ handler) →
        (Unsubscribe bus topic handler).1 = bus ∧ (Unsubscribe bus topic handler).2 = none) := by
  constructor
  · intro l1 l2 x hh h1 hx
    have hlen : (l1 ++ x :: l2).length > 0 := by simp
    have hidx : findHandlerIdx bus topic handler = ((l1.length : Nat) : Int) := by
      unfold findHandlerIdx
      rw [hh]
      dsimp only
      rw [findIdxFrom_of_first_match handler l1 l2 x 0 h1 hx]
      simp
    have hU : Unsubscribe bus topic handler
        = (removeHandler bus topic ((l1.length : Nat) : Int), none) := by
      unfold Unsubscribe
      rw [hh]
      dsimp only
      rw [if_pos hlen, hidx]
    have hin : l1.length < (l1 ++ x :: l2).length := by simp
    rw [hU]
    refine ⟨?_, ?_, ?_, ?_, rfl⟩
    · have := removeHandler_in_range bus topic l1.length _ hh hin
      rw [eraseIdx_append_cons] at this
      exact this
    · show (removeHandler bus topic ((l1.length : Nat) : Int)).slice topic = l1 ++ l2
      rw [removeHandler_slice, slice_of_some bus topic _ hh, eraseIdx_append_cons]
    · intro k hk
      exact removeHandler_other bus topic k _ hk
    · exact removeHandler_middleware bus topic _
  · intro hs hh hne hno
    have hlen : hs.length > 0 := List.length_pos.mpr hne
    have hidx : findHandlerIdx bus topic handler = -1 := by
      unfold findHandlerIdx
      rw [hh]
      exact findIdxFrom_of_no_match handler hs 0 hno
    have hU : Unsubscribe bus topic handler = (removeHandler bus topic (-1), none) := by
      unfold Unsubscribe
      rw [hh]
      dsimp only
      rw [if_pos hlen, hidx]
    rw [hU]
    refine ⟨?_, rfl⟩
    exact removeHandler_out_of_range bus topic (-1) (by omega)

theorem Unsubscribe_removes_first_match_witness :
    (Unsubscribe (Subscribe (SubscribeOnce (Subscribe (Subscribe (New : EventBus Nat)
        "t" 1).1 "t" 2).1 "t" 2).1 "t" 3).1 "t" 2).1.slice "t"
      = [⟨1, false, false, false⟩] ++ [⟨2, true, false, false⟩, ⟨3, false, false, false⟩] ∧
    (Unsubscribe (Subscribe (New : EventBus Nat) "t" 1).1 "t" 2).1
      = (Subscribe (New : EventBus Nat) "t" 1).1 :=
  ⟨((Unsubscribe_removes_first_match (Subscribe (SubscribeOnce (Subscribe (Subscribe
        (New : EventBus Nat) "t" 1).1 "t" 2).1 "t" 2).1 "t" 3).1 "t" 2).1
      [⟨1, false, false, false⟩] [⟨2, true, false, false⟩, ⟨3, false, false, false⟩]
      ⟨2, false, false, false⟩ (by decide) (by decide) (by decide)).2.1,
   ((Unsubscribe_removes_first_match (Subscribe (New : EventBus Nat) "t" 1).1 "t" 2).2
      [⟨1, false, false, false⟩] (by decide) (by decide) (by decide)).1⟩

theorem slice_congr (b1 b2 : EventBus α) (k : String) (h : b1.handlers k = b2.handlers k) :
    b1.slice k = b2.slice k := by
  unfold EventBus.slice
  rw [h]

theorem doSubscribe_slice_same (bus : EventBus α) (topic : String) (h : eventHandler) :
    (doSubscribe bus topic h).1.slice topic = bus.slice topic ++ [h] := by
  simp [doSubscribe, EventBus.slice]

theorem doSubscribe_slice_other (bus : EventBus α) (topic k : String) (h : eventHandler)
    (hk : topic ≠ k) : (doSubscribe bus topic h).1.slice k = bus.slice k := by
  apply slice_congr
  exact store_handlers_other bus topic k _ (Ne.symm hk)

/-- The index found by `findHandlerIdx` is `-1` when no callback matches, and
otherwise the position whose removal erases the first occurrence of the
callback from the list of callbacks. -/
theorem findIdxFrom_spec (callback : Nat) (hs : List eventHandler) (k : Int) :
    (findIdxFrom callback hs k = -1 ∧ callback ∉ hs.map eventHandler.callBack) ∨
    (∃ j : Nat, j < hs.length ∧ findIdxFrom callback hs k = k + (j : Int) ∧
      (hs.eraseIdx j).map eventHandler.callBack
        = (hs.map eventHandler.callBack).erase callback) := by
  induction hs generalizing k with
  | nil => left; simp [findIdxFrom]
  | cons x rest ih =>
    by_cases hx : x.callBack = callback
    · right
      refine ⟨0, by simp, by simp [findIdxFrom, hx], ?_⟩
      simp [hx]
    · rcases ih (k + 1) with ⟨h1, h2⟩ | ⟨j, hj, h1, h2⟩
      · left
        refine ⟨by rw [findIdxFrom, if_neg hx, h1], ?_⟩
        simp only [List.map_cons, List.mem_cons, not_or]
        exact ⟨fun e => hx e.symm, h2⟩
      · right
        refine ⟨j + 1, by simp [hj], ?_, ?_⟩
        · rw [findIdxFrom, if_neg hx, h1]
          push_cast
          ring
        · simp only [List.eraseIdx_cons_succ, List.map_cons]
          rw [h2, List.erase_cons_tail]
          simpa using hx

theorem Unsubscribe_slice_same (bus : EventBus α) (topic : String) (fn : Nat) :
    ((Unsubscribe bus topic fn).1.slice topic).map eventHandler.callBack
      = ((bus.slice topic).map eventHandler.callBack).erase fn := by
  cases hh : bus.handlers topic with
  | none =>
    have hU : Unsubscribe bus topic fn = (bus, some (topicError topic)) := by
      unfold Unsubscribe; rw [hh]
    rw [hU, slice_of_none bus topic hh]
    rfl
  | some hs =>
    by_cases hl : hs.length > 0
    · have hU : Unsubscribe bus topic fn
          = (removeHandler bus topic (findIdxFrom fn hs 0), none) := by
        unfold Unsubscribe findHandlerIdx
        rw [hh]
        dsimp only
        rw [if_pos hl]
      rw [hU, slice_of_some bus topic hs hh]
      rcases findIdxFrom_spec fn hs 0 with ⟨h1, h2⟩ | ⟨j, _, h1, h2⟩
      · rw [h1, removeHandler_out_of_range bus topic (-1) (by omega),
          slice_of_some bus topic hs hh, List.erase_of_not_mem h2]
      · rw [h1, Int.zero_add, removeHandler_slice, slice_of_some bus topic hs hh, h2]
    · have hU : Unsubscribe bus topic fn = (bus, some (topicError topic)) := by
        unfold Unsubscribe
        rw [hh]
        dsimp only
        rw [if_neg hl]
      have : hs = [] := List.eq_nil_of_length_eq_zero (by omega)
      subst this
      rw [hU, slice_of_some bus topic [] hh]
      rfl

theorem Unsubscribe_slice_other (bus : EventBus α) (topic k : String) (fn : Nat)
    (hk : topic ≠ k) : (Unsubscribe bus topic fn).1.slice k = bus.slice k := by
  apply slice_congr
  unfold Unsubscribe
  split
  · split
    · exact removeHandler_other bus topic k _ (Ne.symm hk)
    · rfl
  · rfl

/-- One call keeps the callbacks of the live handlers of a topic equal to the
live subscriptions the specification counts. -/
theorem apply_specLive (bus : EventBus α) (topic : String) (op : BusOp) :
    ((op.apply bus).slice topic).map eventHandler.callBack
      = specLive topic ((bus.slice topic).map eventHandler.callBack) op := by
  cases op with
  | subscribe t fn =>
    by_cases ht : t = topic
    · subst ht; simp [BusOp.apply, Subscribe, specLive, doSubscribe_slice_same]
    · simp [BusOp.apply, Subscribe, specLive, ht, doSubscribe_slice_other _ _ _ _ ht]
  | subscribeAsync t fn tr =>
    by_cases ht : t = topic
    · subst ht; simp [BusOp.apply, SubscribeAsync, specLive, doSubscribe_slice_same]
    · simp [BusOp.apply, SubscribeAsync, specLive, ht, doSubscribe_slice_other _ _ _ _ ht]
  | subscribeOnce t fn =>
    by_cases ht : t = topic
    · subst ht; simp [BusOp.apply, SubscribeOnce, specLive, doSubscribe_slice_same]
    · simp [BusOp.apply, SubscribeOnce, specLive, ht, doSubscribe_slice_other _ _ _ _ ht]
  | subscribeOnceAsync t fn =>
    by_cases ht : t = topic
    · subst ht; simp [BusOp.apply, SubscribeOnceAsync, specLive, doSubscribe_slice_same]
    · simp [BusOp.apply, SubscribeOnceAsync, specLive, ht, doSubscribe_slice_other _ _ _ _ ht]
  | unsubscribe t fn =>
    by_cases ht : t = topic
    · subst ht; simp [BusOp.apply, specLive, Unsubscribe_slice_same]
    · simp [BusOp.apply, specLive, ht, Unsubscribe_slice_other _ _ _ _ ht]

theorem runOps_specLive (bus : EventBus α) (topic : String) (ops : List BusOp) :
    ((runOps bus ops).slice topic).map eventHandler.callBack
      = ops.foldl (specLive topic) ((bus.slice topic).map eventHandler.callBack) := by
  induction ops generalizing bus with
  | nil => rfl
  | cons op rest ih =>
    have e : runOps bus (op :: rest) = runOps (op.apply bus) rest := rfl
    rw [e, ih, apply_specLive, List.foldl_cons]

/-- C7: on a new bus, after every prefix of every sequence of `Subscribe`,
`SubscribeAsync`, `SubscribeOnce`, `SubscribeOnceAsync` and `Unsubscribe`
calls, `HasCallback` of a topic is true exactly when the number of live
handlers of the topic (subscriptions made minus handlers removed by a
matching `Unsubscribe`) is greater than zero. -/
theorem HasCallback_iff_live_count_pos (ops : List BusOp) (topic : String) (n : Nat) :
    HasCallback (runOps (New : EventBus α) (ops.take n)) topic
      = decide (0 < specLiveCount topic (ops.take n)) := by
  rw [HasCallback_eq_slice]
  have h := runOps_specLive (New : EventBus α) topic (ops.take n)
  have h0 : ((New : EventBus α).slice topic).map eventHandler.callBack = [] := rfl
  rw [h0] at h
  unfold specLiveCount
  rw [← h, List.length_map]

theorem invocations_append (bus : EventBus α) (l1 l2 : List (Effect α)) :
    invocations bus (l1 ++ l2) = invocations bus l1 ++ invocations bus l2 := by
  induction l1 with
  | nil => rfl
  | cons e rest ih =>
    cases e with
    | call cb v => simp [invocations, ih]
    | spawn h t d => simp [invocations, ih]

theorem Publish_middleware (bus : EventBus α) (topic : String) (data : Any α) :
    (Publish bus topic data).1.middleware = bus.middleware := by
  unfold Publish
  split
  · split
    · exact publishLoop_middleware _ _ _ _ _
    · rfl
  · rfl

theorem Publish_other (bus : EventBus α) (topic k : String) (data : Any α) (hk : k ≠ topic) :
    (Publish bus topic data).1.handlers k = bus.handlers k := by
  unfold Publish
  split
  · split
    · exact publishLoop_other _ _ _ _ _ _ hk
    · rfl
  · rfl

/-- The callbacks invoked through one `Publish`, the goroutines it started
included: none when the pipeline gives nil, otherwise every handler of the
snapshot with the value the pipeline gives. -/
theorem invocations_Publish (bus : EventBus α) (topic : String) (data : Any α) :
    invocations (Publish bus topic data).1 (Publish bus topic data).2 =
      match runMiddleware bus.middleware topic data with
      | none => []
      | some v => (bus.slice topic).map (fun h => (h.callBack, v)) := by
  have hm := Publish_middleware bus topic data
  rw [Publish_effects]
  generalize (Publish bus topic data).1 = bus1 at hm ⊢
  induction bus.slice topic with
  | nil => cases runMiddleware bus.middleware topic data <;> rfl
  | cons h rest ih =>
    rw [List.flatMap_cons, invocations_append, ih]
    cases hr : runMiddleware bus.middleware topic data with
    | none => cases ha : h.async <;> simp [invocations, doPublishAsync, doPublish, hm, hr]
    | some v => cases ha : h.async <;> simp [invocations, doPublishAsync, doPublish, hm, hr]

/-- C8 (counterexample): the first of two stages returns nil for the payload
it is given, the second stage turns that nil into `7`, and the handler is
invoked, with `7`. -/
theorem Publish_nil_from_inner_stage_still_invokes :
    (fun (_ : String) (_ : Any Nat) => (none : Any Nat)) "t" (some 1) = none ∧
    (Publish (Subscribe (AddMiddleware (AddMiddleware (New : EventBus Nat)
        (fun _ _ => none)) (fun _ _ => some 7)) "t" 1).1 "t" (some 1)).2
      = [Effect.call 1 7] := by
  constructor
  · rfl
  · decide

/-- C8 (amended): a handler is suppressed exactly when the result of the whole
pipeline is nil, which is the case when the last stage returns nil for what
it is given: then neither `doPublish` nor a goroutine running
`doPublishAsync` calls the callback, and the publish invokes nothing. When
the result is a non-nil `v`, each dispatch calls its callback with `v`, and
the publish invokes every handler of the snapshot with `v`. -/
theorem Publish_suppressed_iff_pipeline_result_nil (bus : EventBus α) (topic : String)
    (data : Any α) :
    (∀ (stages : List (String → Any α → Any α)) (last : String → Any α → Any α),
        bus.middleware = stages ++ [last] →
        last topic (runMiddleware stages topic data) = none →
        runMiddleware bus.middleware topic data = none) ∧
    (runMiddleware bus.middleware topic data = none →
        (∀ h : eventHandler, doPublish bus h topic data = [] ∧
          doPublishAsync bus h topic data = []) ∧
        invocations (Publish bus topic data).1 (Publish bus topic data).2 = []) ∧
    (∀ v : α, runMiddleware bus.middleware topic data = some v →
        (∀ h : eventHandler, doPublish bus h topic data = [Effect.call h.callBack v] ∧
          doPublishAsync bus h topic data = [Effect.call h.callBack v]) ∧
        invocations (Publish bus topic data).1 (Publish bus topic data).2
          = (bus.slice topic).map (fun h => (h.callBack, v))) := by
  refine ⟨?_, ?_, ?_⟩
  · intro stages last hm hl
    rw [hm]
    unfold runMiddleware at hl ⊢
    rw [List.foldl_append]
    exact hl
  · intro hr
    refine ⟨fun h => ?_, ?_⟩
    · simp [doPublishAsync, doPublish, hr]
    · rw [invocations_Publish, hr]
  · intro v hr
    refine ⟨fun h => ?_, ?_⟩
    · simp [doPublishAsync, doPublish, hr]
    · rw [invocations_Publish, hr]

theorem Publish_suppressed_iff_pipeline_result_nil_witness :
    invocations
        (Publish (Subscribe (SubscribeAsync (AddMiddleware (AddMiddleware (New : EventBus Nat)
          (fun _ _ => some 7)) (fun _ _ => none)) "t" 1 false).1 "t" 2).1 "t" (some 1)).1
        (Publish (Subscribe (SubscribeAsync (AddMiddleware (AddMiddleware (New : EventBus Nat)
          (fun _ _ => some 7)) (fun _ _ => none)) "t" 1 false).1 "t" 2).1 "t" (some 1)).2
      = [] ∧
    invocations
        (Publish (Subscribe (SubscribeAsync (AddMiddleware (New : EventBus Nat)
          (fun _ x => x.map (fun n => n + 1))) "t" 1 false).1 "t" 2).1 "t" (some 1)).1
        (Publish (Subscribe (SubscribeAsync (AddMiddleware (New : EventBus Nat)
          (fun _ x => x.map (fun n => n + 1))) "t" 1 false).1 "t" 2).1 "t" (some 1)).2
      = [(1, 2), (2, 2)] ∧
    runMiddleware (AddMiddleware (AddMiddleware (New : EventBus Nat)
        (fun _ _ => some 7)) (fun _ _ => none)).middleware "t" (some 1) = none :=
  ⟨((Publish_suppressed_iff_pipeline_result_nil
      (Subscribe (SubscribeAsync (AddMiddleware (AddMiddleware (New : EventBus Nat)
          (fun _ _ => some 7)) (fun _ _ => none)) "t" 1 false).1 "t" 2).1 "t" (some 1)).2.1
      (by decide)).2,
   ((Publish_suppressed_iff_pipeline_result_nil
      (Subscribe (SubscribeAsync (AddMiddleware (New : EventBus Nat)
          (fun _ x => x.map (fun n => n + 1))) "t" 1 false).1 "t" 2).1 "t" (some 1)).2.2
      2 (by decide)).2,
   (Publish_suppressed_iff_pipeline_result_nil
      (AddMiddleware (AddMiddleware (New : EventBus Nat)
          (fun _ _ => some 7)) (fun _ _ => none)) "t" (some 1)).1
      [fun _ _ => some 7] (fun _ _ => none) rfl rfl⟩

/-- A once-handler that is alone on its topic is removed by the first
`Publish`, so the next `Publish` finds no handler. -/
theorem Publish_lone_once_handler (bus : EventBus α) (topic : String) (fn : Nat)
    (async : Bool) (data data2 : Any α) (h : HasCallback bus topic = false) :
    (Publish (doSubscribe bus topic ⟨fn, true, async, false⟩).1 topic data).1.handlers topic
      = none ∧
    (Publish (Publish (doSubscribe bus topic ⟨fn, true, async, false⟩).1 topic data).1
      topic data2).2 = [] := by
  have h0 : bus.slice topic = [] := by
    rw [HasCallback_eq_slice] at h
    exact List.eq_nil_of_length_eq_zero (by simpa using h)
  have hreg : (Publish (doSubscribe bus topic ⟨fn, true, async, false⟩).1 topic
      data).1.handlers topic = none := by
    simp [Publish, publishLoop, doSubscribe, h0, removeHandler, EventBus.store,
      EventBus.delete]
  refine ⟨hreg, ?_⟩
  rw [Publish_effects, slice_of_none _ _ hreg]
  rfl

/-- C19: a handler registered with `SubscribeOnce` or `SubscribeOnceAsync` (as
`AwaitTopic` does on a correlation topic) on a topic without live handlers is
no longer registered after one `Publish` to the topic: the key is deleted,
`HasCallback` is false, and a second `Publish` dispatches nothing. -/
theorem Publish_only_once_handler_is_removed (bus : EventBus α) (topic : String) (fn : Nat)
    (data data2 : Any α) (h : HasCallback bus topic = false) :
    ((Publish (SubscribeOnce bus topic fn).1 topic data).1.handlers topic = none ∧
      HasCallback (Publish (SubscribeOnce bus topic fn).1 topic data).1 topic = false ∧
      (Publish (Publish (SubscribeOnce bus topic fn).1 topic data).1 topic data2).2 = []) ∧
    ((Publish (SubscribeOnceAsync bus topic fn).1 topic data).1.handlers topic = none ∧
      HasCallback (Publish (SubscribeOnceAsync bus topic fn).1 topic data).1 topic = false ∧
      (Publish (Publish (SubscribeOnceAsync bus topic fn).1 topic data).1 topic data2).2
        = []) := by
  have hs := Publish_lone_once_handler bus topic fn false data data2 h
  have ha := Publish_lone_once_handler bus topic fn true data data2 h
  refine ⟨⟨hs.1, ?_, hs.2⟩, ⟨ha.1, ?_, ha.2⟩⟩
  · unfold HasCallback
    rw [show (Publish (SubscribeOnce bus topic fn).1 topic data).1.handlers topic = none
      from hs.1]
  · unfold HasCallback
    rw [show (Publish (SubscribeOnceAsync bus topic fn).1 topic data).1.handlers topic = none
      from ha.1]

theorem Publish_only_once_handler_is_removed_witness :
    HasCallback (Publish (SubscribeOnceAsync (New : EventBus Nat) "1f" 1).1 "1f" (some 5)).1
      "1f" = false ∧
    (Publish (Publish (SubscribeOnceAsync (New : EventBus Nat) "1f" 1).1 "1f" (some 5)).1 "1f"
      (some 6)).2 = [] :=
  ⟨(Publish_only_once_handler_is_removed New "1f" 1 (some 5) (some 6) (by decide)).2.2.1,
   (Publish_only_once_handler_is_removed New "1f" 1 (some 5) (some 6) (by decide)).2.2.2⟩

theorem addMiddlewareAll_middleware (bus : EventBus α)
    (stages : List (String → Any α → Any α)) :
    (addMiddlewareAll bus stages).middleware = bus.middleware ++ stages := by
  induction stages generalizing bus with
  | nil => simp [addMiddlewareAll]
  | cons m rest ih =>
    have e : addMiddlewareAll bus (m :: rest) = addMiddlewareAll (AddMiddleware bus m) rest :=
      rfl
    rw [e, ih]
    simp [AddMiddleware]

theorem addMiddlewareAll_handlers (bus : EventBus α)
    (stages : List (String → Any α → Any α)) :
    (addMiddlewareAll bus stages).handlers = bus.handlers := by
  induction stages generalizing bus with
  | nil => rfl
  | cons m rest ih =>
    have e : addMiddlewareAll bus (m :: rest) = addMiddlewareAll (AddMiddleware bus m) rest :=
      rfl
    rw [e, ih]
    rfl

/-- The loop of `runMiddleware` computes the composition of the stages in the
order of the list. -/
theorem runMiddleware_eq_specPipeline (stages : List (String → Any α → Any α))
    (topic : String) (p : Any α) :
    runMiddleware stages topic p = specPipeline stages topic p := by
  unfold specPipeline runMiddleware
  induction stages using List.reverseRecOn with
  | nil => rfl
  | append_singleton init m ih =>
    rw [List.foldl_append, List.reverse_append, List.reverse_singleton,
      List.singleton_append, List.foldl_cons, List.foldl_nil, ih]
    rfl

/-- C21: after `AddMiddleware` calls with the stages `m1, ..., mk` in this
order on a bus without middleware, a `Publish` of `p` on `t` passes to every
handler it invokes, inline or in a goroutine, the value
`mk(t, ... m1(t, p) ...)`, computed from `p` itself for each handler; with
no stage this value is `p`. A handler is invoked exactly when that value is
not nil. -/
theorem Publish_passes_composed_stages (bus : EventBus α)
    (stages : List (String → Any α → Any α)) (topic : String) (p : Any α)
    (hnone : bus.middleware = []) :
    (addMiddlewareAll bus stages).middleware = stages ∧
    specPipeline ([] : List (String → Any α → Any α)) topic p = p ∧
    (∀ h : eventHandler,
      doPublish (addMiddlewareAll bus stages) h topic p
        = (match specPipeline stages topic p with
            | none => []
            | some v => [Effect.call h.callBack v]) ∧
      doPublishAsync (addMiddlewareAll bus stages) h topic p
        = (match specPipeline stages topic p with
            | none => []
            | some v => [Effect.call h.callBack v])) ∧
    invocations (Publish (addMiddlewareAll bus stages) topic p).1
        (Publish (addMiddlewareAll bus stages) topic p).2
      = (match specPipeline stages topic p with
          | none => []
          | some v => (bus.slice topic).map (fun h => (h.callBack, v))) := by
  have hm : (addMiddlewareAll bus stages).middleware = stages := by
    rw [addMiddlewareAll_middleware, hnone, List.nil_append]
  have hs : (addMiddlewareAll bus stages).slice topic = bus.slice topic := by
    unfold EventBus.slice
    rw [addMiddlewareAll_handlers]
  refine ⟨hm, rfl, fun h => ?_, ?_⟩
  · simp only [doPublishAsync, doPublish, hm, runMiddleware_eq_specPipeline, and_self]
  · rw [invocations_Publish, hm, hs, runMiddleware_eq_specPipeline]

theorem Publish_passes_composed_stages_witness :
    invocations
        (Publish (addMiddlewareAll (Subscribe (SubscribeAsync (New : EventBus Nat) "t" 1
          false).1 "t" 2).1
          [fun _ x => x.map (fun n => n + 1), fun _ x => x.map (fun n => n * 10)]) "t"
          (some 4)).1
        (Publish (addMiddlewareAll (Subscribe (SubscribeAsync (New : EventBus Nat) "t" 1
          false).1 "t" 2).1
          [fun _ x => x.map (fun n => n + 1), fun _ x => x.map (fun n => n * 10)]) "t"
          (some 4)).2
      = [(1, 50), (2, 50)] :=
  (Publish_passes_composed_stages (Subscribe (SubscribeAsync (New : EventBus Nat) "t" 1
      false).1 "t" 2).1
    [fun _ x => x.map (fun n => n + 1), fun _ x => x.map (fun n => n * 10)] "t" (some 4)
    rfl).2.2.2

/-- What the loop of `Publish` removes from the registry does not depend on
the payload. -/
theorem publishLoop_bus_payload (topic : String) (d1 d2 : Any α) (snap : List eventHandler)
    (i : Nat) (bus : EventBus α) :
    (publishLoop topic d1 snap i bus).1 = (publishLoop topic d2 snap i bus).1 := by
  induction snap generalizing i bus with
  | nil => rfl
  | cons h rest ih =>
    simp only [publishLoop]
    exact ih _ _

theorem Publish_bus_payload (bus : EventBus α) (topic : String) (d1 d2 : Any α) :
    (Publish bus topic d1).1 = (Publish bus topic d2).1 := by
  unfold Publish
  split
  · split
    · exact publishLoop_bus_payload _ _ _ _ _ _
    · rfl
  · rfl

/-- Without middleware a `Publish` of nil makes no call: its effects are the
goroutines started for the asynchronous handlers of the snapshot. -/
theorem Publish_nil_effects (bus : EventBus α) (topic : String) (hmw : bus.middleware = []) :
    (Publish bus topic none).2
      = ((bus.slice topic).filter (fun h => h.async)).map
          (fun h => Effect.spawn h topic none) := by
  rw [Publish_effects, hmw]
  induction bus.slice topic with
  | nil => rfl
  | cons h rest ih =>
    rw [List.flatMap_cons, ih]
    cases ha : h.async <;> simp [runMiddleware, ha]

/-- A `Publish` in which no callback panics is `Publish`: same bus, same
effects. -/
theorem publishLoopFaulting_of_no_panic (faults : Nat → α → Option String) (topic : String)
    (data : Any α) (snap : List eventHandler) (i : Nat) (bus : EventBus α)
    (h : (publishLoopFaulting faults topic data snap i bus).panic = none) :
    (publishLoopFaulting faults topic data snap i bus).bus
      = (publishLoop topic data snap i bus).1 ∧
    (publishLoopFaulting faults topic data snap i bus).effects
      = (publishLoop topic data snap i bus).2 := by
  induction snap generalizing i bus with
  | nil => exact ⟨rfl, rfl⟩
  | cons hd rest ih =>
    simp only [publishLoopFaulting, publishLoop] at h ⊢
    cases ha : hd.async with
    | true =>
      simp only [ha, Bool.not_true, Bool.false_eq_true, if_false] at h ⊢
      have := ih _ _ h
      exact ⟨this.1, by rw [this.2]; rfl⟩
    | false =>
      simp only [ha, Bool.not_false, if_true] at h ⊢
      cases hm : runMiddleware (if hd.flagOnce = true then removeHandler bus topic ↑i
          else bus).middleware topic data with
      | none =>
        simp only [hm] at h ⊢
        have := ih _ _ h
        exact ⟨this.1, by rw [this.2]; simp [doPublish, hm]⟩
      | some v =>
        simp only [hm] at h ⊢
        cases hf : faults hd.callBack v with
        | some e => simp [hf] at h
        | none =>
          simp only [hf] at h ⊢
          have := ih _ _ h
          exact ⟨this.1, by rw [this.2]; simp [doPublish, hm]⟩

theorem PublishFaulting_of_no_panic (faults : Nat → α → Option String) (bus : EventBus α)
    (topic : String) (data : Any α) (h : (PublishFaulting faults bus topic data).panic = none) :
    (PublishFaulting faults bus topic data).bus = (Publish bus topic data).1 ∧
    (PublishFaulting faults bus topic data).effects = (Publish bus topic data).2 := by
  unfold PublishFaulting at h ⊢
  unfold Publish
  cases hh : bus.handlers topic with
  | none => exact ⟨rfl, rfl⟩
  | some hs =>
    rw [hh] at h
    dsimp only at h ⊢
    by_cases hl : 0 < hs.length
    · rw [if_pos hl] at h ⊢
      rw [if_pos hl]
      exact publishLoopFaulting_of_no_panic _ _ _ _ _ _ h
    · rw [if_neg hl, if_neg hl]
      exact ⟨rfl, rfl⟩

theorem publishLoopFaulting_no_faults (faults : Nat → α → Option String) (topic : String)
    (data : Any α) (snap : List eventHandler) (i : Nat) (bus : EventBus α)
    (h : ∀ cb v, faults cb v = none) :
    (publishLoopFaulting faults topic data snap i bus).panic = none := by
  induction snap generalizing i bus with
  | nil => rfl
  | cons hd rest ih =>
    simp only [publishLoopFaulting]
    split
    · split
      · exact ih _ _
      · rename_i v _
        rw [h hd.callBack v]
        exact ih _ _
    · exact ih _ _

/-- When no callback panics, `Publish` returns. -/
theorem PublishFaulting_no_faults (faults : Nat → α → Option String) (bus : EventBus α)
    (topic : String) (data : Any α) (h : ∀ cb v, faults cb v = none) :
    (PublishFaulting faults bus topic data).panic = none := by
  unfold PublishFaulting
  split
  · split
    · exact publishLoopFaulting_no_faults _ _ _ _ _ _ h
    · rfl
  · rfl

/-- C23 (the code at the failing input): two once-handlers `f` and `g` are
registered on a topic of a new bus, which has no middleware. A `Publish` of
nil on the topic invokes neither of them (it has no effect besides the
registry) and removes `f`, but it leaves `g` registered although it selected
`g`: the removal uses the index of `g` in the snapshot. With a persistent
handler `p` registered after them, it removes `p` in the place of `g`. -/
theorem Publish_nil_leaves_selected_once_handler (topic : String) (f g p : Nat) :
    (Publish (SubscribeOnce (SubscribeOnce (New : EventBus α) topic f).1 topic g).1 topic
        none).2 = [] ∧
    (Publish (SubscribeOnce (SubscribeOnce (New : EventBus α) topic f).1 topic g).1 topic
        none).1.handlers topic = some [⟨g, true, false, false⟩] ∧
    (Publish (Subscribe (SubscribeOnce (SubscribeOnce (New : EventBus α) topic f).1 topic g).1
        topic p).1 topic none).2 = [] ∧
    (Publish (Subscribe (SubscribeOnce (SubscribeOnce (New : EventBus α) topic f).1 topic g).1
        topic p).1 topic none).1.handlers topic = some [⟨g, true, false, false⟩] := by
  simp [Publish, publishLoop, Subscribe, SubscribeOnce, doSubscribe, New, EventBus.slice,
    EventBus.store, EventBus.delete, removeHandler, doPublish, runMiddleware]

end eventbus

namespace overseer

theorem Start_stopped (bs : BaseSubsystem) (r : Option String) :
    (bs.Start r).bs.stopped = bs.stopped := by
  unfold BaseSubsystem.Start
  split
  · dsimp only
    split
    · rfl
    · cases r <;> rfl
  · rfl

theorem next_stopped_one (bs : BaseSubsystem) (c : LifeCall) (h : bs.stopped = 1) :
    (LifeCall.next bs c).stopped = 1 := by
  cases c with
  | start r => simp only [LifeCall.next]; rw [Start_stopped]; exact h
  | stop r => simp [LifeCall.next, BaseSubsystem.Stop, h]

theorem runCalls_stopped_one (bs : BaseSubsystem) (calls : List LifeCall) (h : bs.stopped = 1) :
    (runCalls bs calls).stopped = 1 := by
  induction calls generalizing bs with
  | nil => exact h
  | cons c rest ih => exact ih (LifeCall.next bs c) (next_stopped_one bs c h)

/-- The flag `stopped` only holds `0` or `1` in a state reached from a new
wrapper. -/
theorem runCalls_stopped_le_one (name : String) (calls : List LifeCall) :
    (runCalls (NewBaseSubsystem name) calls).stopped = 0 ∨
    (runCalls (NewBaseSubsystem name) calls).stopped = 1 := by
  have key : ∀ (bs : BaseSubsystem), (bs.stopped = 0 ∨ bs.stopped = 1) →
      ((runCalls bs calls).stopped = 0 ∨ (runCalls bs calls).stopped = 1) := by
    induction calls with
    | nil => intro bs h; exact h
    | cons c rest ih =>
      intro bs h
      apply ih (LifeCall.next bs c)
      cases c with
      | start r => simp only [LifeCall.next]; rw [Start_stopped]; exact h
      | stop r =>
        rcases h with h | h
        · right; simp [LifeCall.next, BaseSubsystem.Stop, h]
        · right; simp [LifeCall.next, BaseSubsystem.Stop, h]
  exact key _ (Or.inl rfl)

theorem Stop_stopped_one (bs : BaseSubsystem) (r : Option String)
    (h : bs.stopped = 0 ∨ bs.stopped = 1) : (bs.Stop r).bs.stopped = 1 := by
  rcases h with h | h <;> simp [BaseSubsystem.Stop, h]

theorem Start_of_stopped (bs : BaseSubsystem) (r : Option String) (h : bs.stopped = 1) :
    (bs.Start r).ok = false ∧ (bs.Start r).err = none ∧ (bs.Start r).actions = [] := by
  unfold BaseSubsystem.Start
  split
  · simp [h]
  · simp

/-- C9: take a new wrapper and any history of `Start` and `Stop` calls, then a
`Stop` call, then any further calls. A `Start` call made after that returns
`(false, nil)` and does not invoke `OnStart`, whatever the hook would
return. -/
theorem Start_after_Stop_is_refused (name : String) (history later : List LifeCall)
    (onStop onStart : Option String) :
    ((runCalls ((runCalls (NewBaseSubsystem name) history).Stop onStop).bs later).Start
        onStart).ok = false ∧
    ((runCalls ((runCalls (NewBaseSubsystem name) history).Stop onStop).bs later).Start
        onStart).err = none ∧
    ((runCalls ((runCalls (NewBaseSubsystem name) history).Stop onStop).bs later).Start
        onStart).actions = [] := by
  apply Start_of_stopped
  apply runCalls_stopped_one
  exact Stop_stopped_one _ _ (runCalls_stopped_le_one name history)

theorem next_start_one (bs : BaseSubsystem) (c : LifeCall) (h : bs.start = 1) :
    (LifeCall.next bs c).start = 1 := by
  cases c with
  | start r => simp [LifeCall.next, BaseSubsystem.Start, h]
  | stop r =>
    simp only [LifeCall.next, BaseSubsystem.Stop]
    split <;> exact h

theorem actions_of_start_one (bs : BaseSubsystem) (c : LifeCall) (h : bs.start = 1) :
    Action.onStart ∉ LifeCall.actions bs c := by
  cases c with
  | start r => simp [LifeCall.actions, BaseSubsystem.Start, h]
  | stop r =>
    simp only [LifeCall.actions, BaseSubsystem.Stop]
    split <;> simp

theorem runCalls_start_one (bs : BaseSubsystem) (calls : List LifeCall) (h : bs.start = 1) :
    (runCalls bs calls).start = 1 := by
  induction calls generalizing bs with
  | nil => exact h
  | cons c rest ih => exact ih (LifeCall.next bs c) (next_start_one bs c h)

theorem runActions_of_start_one (bs : BaseSubsystem) (calls : List LifeCall)
    (h : bs.start = 1) : (runActions bs calls).count Action.onStart = 0 := by
  induction calls generalizing bs with
  | nil => rfl
  | cons c rest ih =>
    simp only [runActions, List.count_append]
    rw [ih (LifeCall.next bs c) (next_start_one bs c h),
      List.count_eq_zero_of_not_mem (actions_of_start_one bs c h)]

theorem Start_of_start_one (bs : BaseSubsystem) (r : Option String) (h : bs.start = 1) :
    (bs.Start r).ok = false ∧ (bs.Start r).err = none ∧ (bs.Start r).actions = [] := by
  simp [BaseSubsystem.Start, h]

/-- C10: on a wrapper that was neither started nor stopped, a `Start` call
whose `OnStart` hook succeeds returns `(true, nil)` and invokes the hook once.
Whatever `Start` and `Stop` calls follow, every later `Start` call returns
`(false, nil)` without invoking the hook, so over the whole run the hook is
executed exactly once. -/
theorem Start_twice_runs_hook_once (bs : BaseSubsystem) (later : List LifeCall)
    (onStart : Option String) (hstart : bs.start = 0) (hstopped : bs.stopped = 0) :
    (bs.Start none).ok = true ∧ (bs.Start none).err = none ∧
    (bs.Start none).actions = [Action.onStart] ∧
    ((runCalls (bs.Start none).bs later).Start onStart).ok = false ∧
    ((runCalls (bs.Start none).bs later).Start onStart).err = none ∧
    ((runCalls (bs.Start none).bs later).Start onStart).actions = [] ∧
    (runActions bs (LifeCall.start none :: (later ++ [LifeCall.start onStart]))).count
      Action.onStart = 1 := by
  have h1 : (bs.Start none).bs.start = 1 := by
    simp [BaseSubsystem.Start, hstart, hstopped]
  have ha : (bs.Start none).actions = [Action.onStart] := by
    simp [BaseSubsystem.Start, hstart, hstopped]
  have hl := Start_of_start_one (runCalls (bs.Start none).bs later) onStart
    (runCalls_start_one _ later h1)
  refine ⟨?_, ?_, ha, hl.1, hl.2.1, hl.2.2, ?_⟩
  · simp [BaseSubsystem.Start, hstart, hstopped]
  · simp [BaseSubsystem.Start, hstart, hstopped]
  · simp only [runActions, LifeCall.actions, LifeCall.next, List.count_append]
    rw [ha, runActions_of_start_one _ _ h1]
    rfl

theorem Start_twice_runs_hook_once_witness :
    ((NewBaseSubsystem "subsystem1").Start none).ok = true ∧
    ((NewBaseSubsystem "subsystem1").Start none).err = none ∧
    ((NewBaseSubsystem "subsystem1").Start none).actions = [Action.onStart] ∧
    ((runCalls ((NewBaseSubsystem "subsystem1").Start none).bs []).Start none).ok = false ∧
    ((runCalls ((NewBaseSubsystem "subsystem1").Start none).bs []).Start none).err = none ∧
    ((runCalls ((NewBaseSubsystem "subsystem1").Start none).bs []).Start none).actions = [] ∧
    (runActions (NewBaseSubsystem "subsystem1")
      (LifeCall.start none :: ([] ++ [LifeCall.start none]))).count Action.onStart = 1 :=
  Start_twice_runs_hook_once (NewBaseSubsystem "subsystem1") [] none (by decide) (by decide)

/-- C11: on a wrapper that is not stopped and was not started, a `Start` call
whose `OnStart` hook fails with `e` returns `(false, e)` and leaves the
wrapper exactly as it was (attempt flag back to `0`, `started` not set,
`IsRunning` false). After it, and after any number of further failed
attempts, a `Start` call whose hook succeeds invokes the hook and returns
`(true, nil)`. -/
theorem Start_failure_reverts_and_allows_retry (bs : BaseSubsystem) (e : String)
    (more : List String)
    (hstart : bs.start = 0) (hstarted : bs.started = 0) (hstopped : bs.stopped = 0) :
    (bs.Start (some e)).ok = false ∧ (bs.Start (some e)).err = some e ∧
    (bs.Start (some e)).actions = [Action.onStart] ∧
    (bs.Start (some e)).bs = bs ∧
    (bs.Start (some e)).bs.IsRunning = false ∧
    ((runCalls (bs.Start (some e)).bs (more.map (fun x => LifeCall.start (some x)))).Start
        none).ok = true ∧
    ((runCalls (bs.Start (some e)).bs (more.map (fun x => LifeCall.start (some x)))).Start
        none).err = none ∧
    ((runCalls (bs.Start (some e)).bs (more.map (fun x => LifeCall.start (some x)))).Start
        none).actions = [Action.onStart] := by
  have hfail : ∀ x : String, (bs.Start (some x)).bs = bs := by
    intro x
    cases bs
    simp_all [BaseSubsystem.Start]
  have hrun : ∀ l : List String,
      runCalls bs (l.map (fun x => LifeCall.start (some x))) = bs := by
    intro l
    induction l with
    | nil => rfl
    | cons x rest ih =>
      simp only [List.map_cons, runCalls, List.foldl_cons, LifeCall.next]
      rw [hfail x]
      exact ih
  rw [hfail e, hrun more]
  simp [BaseSubsystem.Start, BaseSubsystem.IsRunning, hstart, hstarted, hstopped]

theorem Start_failure_reverts_and_allows_retry_witness :
    ((NewBaseSubsystem "subsystem1").Start (some "boom")).ok = false ∧
    ((NewBaseSubsystem "subsystem1").Start (some "boom")).err = some "boom" ∧
    ((NewBaseSubsystem "subsystem1").Start (some "boom")).bs = NewBaseSubsystem "subsystem1" ∧
    ((runCalls ((NewBaseSubsystem "subsystem1").Start (some "boom")).bs
        (["again"].map (fun x => LifeCall.start (some x)))).Start none).ok = true :=
  ⟨(Start_failure_reverts_and_allows_retry (NewBaseSubsystem "subsystem1") "boom" ["again"]
      (by decide) (by decide) (by decide)).1,
   (Start_failure_reverts_and_allows_retry (NewBaseSubsystem "subsystem1") "boom" ["again"]
      (by decide) (by decide) (by decide)).2.1,
   (Start_failure_reverts_and_allows_retry (NewBaseSubsystem "subsystem1") "boom" ["again"]
      (by decide) (by decide) (by decide)).2.2.2.1,
   (Start_failure_reverts_and_allows_retry (NewBaseSubsystem "subsystem1") "boom" ["again"]
      (by decide) (by decide) (by decide)).2.2.2.2.2.1⟩

theorem Start_actions_no_stop (bs : BaseSubsystem) (r : Option String) :
    (bs.Start r).actions.count Action.onStop = 0 ∧
    (bs.Start r).actions.count Action.closeQuit = 0 := by
  unfold BaseSubsystem.Start
  split
  · dsimp only
    split
    · simp
    · cases r <;> simp
  · simp

theorem runActions_of_stopped_one (bs : BaseSubsystem) (calls : List LifeCall)
    (h : bs.stopped = 1) :
    (runActions bs calls).count Action.onStop = 0 ∧
    (runActions bs calls).count Action.closeQuit = 0 := by
  induction calls generalizing bs with
  | nil => simp [runActions]
  | cons c rest ih =>
    have hn := ih (LifeCall.next bs c) (next_stopped_one bs c h)
    simp only [runActions, List.count_append, hn.1, hn.2, Nat.add_zero]
    cases c with
    | start r => exact Start_actions_no_stop bs r
    | stop r => simp [LifeCall.actions, BaseSubsystem.Stop, h]

/-- Over a run that begins with `stopped = 0`, `OnStop` is invoked and `quit`
is closed once if the run contains a `Stop` call, and never otherwise. -/
theorem runActions_stop_count (bs : BaseSubsystem) (calls : List LifeCall)
    (h : bs.stopped = 0) :
    (runActions bs calls).count Action.onStop = (if calls.any LifeCall.isStop then 1 else 0) ∧
    (runActions bs calls).count Action.closeQuit
      = (if calls.any LifeCall.isStop then 1 else 0) := by
  induction calls generalizing bs with
  | nil => simp [runActions]
  | cons c rest ih =>
    cases c with
    | start r =>
      have hs : (LifeCall.next bs (LifeCall.start r)).stopped = 0 := by
        simp only [LifeCall.next]; rw [Start_stopped]; exact h
      have hn := ih _ hs
      have ha := Start_actions_no_stop bs r
      simp only [runActions, List.count_append, LifeCall.actions, ha.1, ha.2, hn.1, hn.2,
        Nat.zero_add, List.any_cons, LifeCall.isStop, Bool.false_or, and_self]
    | stop r =>
      have hs : (LifeCall.next bs (LifeCall.stop r)).stopped = 1 := by
        simp [LifeCall.next, BaseSubsystem.Stop, h]
      have hn := runActions_of_stopped_one _ rest hs
      simp only [runActions, List.count_append, hn.1, hn.2, Nat.add_zero, List.any_cons,
        LifeCall.isStop, Bool.true_or, if_true]
      simp [LifeCall.actions, BaseSubsystem.Stop, h]

theorem Stop_of_stopped (bs : BaseSubsystem) (r : Option String) (h : bs.stopped = 1) :
    (bs.Stop r).ok = false ∧ (bs.Stop r).actions = [] := by
  simp [BaseSubsystem.Stop, h]

theorem Stop_of_not_stopped (bs : BaseSubsystem) (r : Option String) (h : bs.stopped = 0) :
    (bs.Stop r).ok = true ∧ (bs.Stop r).actions = [Action.onStop, Action.closeQuit] := by
  simp [BaseSubsystem.Stop, h]

theorem runCalls_starts_stopped (bs : BaseSubsystem) (starts : List (Option String)) :
    (runCalls bs (starts.map LifeCall.start)).stopped = bs.stopped := by
  induction starts generalizing bs with
  | nil => rfl
  | cons r rest ih =>
    simp only [List.map_cons, runCalls, List.foldl_cons, LifeCall.next]
    have := ih (bs.Start r).bs
    simp only [runCalls] at this
    rw [this, Start_stopped]

/-- C12: take a new wrapper and any history of `Start` calls, successful or
failed. The first `Stop` call returns true, invokes `OnStop` once and closes
`quit`, whatever `OnStop` returns. After it and any further calls, a `Stop`
call returns false and does nothing. Over every sequence of calls `OnStop`
runs at most once, and `quit` is closed exactly once as soon as the sequence
contains a `Stop` call (and never otherwise). -/
theorem Stop_runs_hook_once (name : String) (starts : List (Option String))
    (later calls : List LifeCall) (onStop onStop2 : Option String) :
    ((runCalls (NewBaseSubsystem name) (starts.map LifeCall.start)).Stop onStop).ok = true ∧
    ((runCalls (NewBaseSubsystem name) (starts.map LifeCall.start)).Stop onStop).actions
      = [Action.onStop, Action.closeQuit] ∧
    ((runCalls ((runCalls (NewBaseSubsystem name) (starts.map LifeCall.start)).Stop onStop).bs
        later).Stop onStop2).ok = false ∧
    ((runCalls ((runCalls (NewBaseSubsystem name) (starts.map LifeCall.start)).Stop onStop).bs
        later).Stop onStop2).actions = [] ∧
    (runActions (NewBaseSubsystem name) calls).count Action.onStop ≤ 1 ∧
    (runActions (NewBaseSubsystem name) calls).count Action.onStop
      = (if calls.any LifeCall.isStop then 1 else 0) ∧
    (runActions (NewBaseSubsystem name) calls).count Action.closeQuit
      = (if calls.any LifeCall.isStop then 1 else 0) := by
  have h0 : (runCalls (NewBaseSubsystem name) (starts.map LifeCall.start)).stopped = 0 := by
    rw [runCalls_starts_stopped]; rfl
  have h1 : ((runCalls (NewBaseSubsystem name) (starts.map LifeCall.start)).Stop
      onStop).bs.stopped = 1 := Stop_stopped_one _ _ (Or.inl h0)
  have h2 := runCalls_stopped_one _ later h1
  have hc := runActions_stop_count (NewBaseSubsystem name) calls rfl
  refine ⟨?_, ?_, ?_, ?_, ?_, hc.1, hc.2⟩
  · exact (Stop_of_not_stopped _ _ h0).1
  · exact (Stop_of_not_stopped _ _ h0).2
  · exact (Stop_of_stopped _ _ h2).1
  · exact (Stop_of_stopped _ _ h2).2
  · rw [hc.1]; split <;> omega

/-- C13 (counterexample): a `Start` call whose hook fails followed by a `Start`
call whose hook succeeds invokes `OnStart` twice. -/
theorem OnStart_invoked_twice_after_failure :
    (runActions (NewBaseSubsystem "subsystem1")
      [LifeCall.start (some "boom"), LifeCall.start none]).count Action.onStart = 2 := by
  decide

theorem Stop_actions_no_start (bs : BaseSubsystem) (r : Option String) :
    (bs.Stop r).actions.count Action.onStart = 0 := by
  unfold BaseSubsystem.Stop
  split <;> simp

theorem Stop_start (bs : BaseSubsystem) (r : Option String) :
    (bs.Stop r).bs.start = bs.start := by
  unfold BaseSubsystem.Stop
  split <;> rfl

/-- Once the attempt flag is set, no call invokes `OnStart` and every `Start`
call returns `(false, nil)`. -/
theorem run_of_start_ne_zero (bs : BaseSubsystem) (calls : List LifeCall) (h : bs.start ≠ 0) :
    (runActions bs calls).count Action.onStart = 0 ∧
    (runStarts bs calls).countP (fun r => r.1) = 0 ∧
    (runStarts bs calls).countP (fun r => r.2.isSome) = 0 := by
  induction calls generalizing bs with
  | nil => simp [runActions, runStarts]
  | cons c rest ih =>
    cases c with
    | start r =>
      have hS : bs.Start r = { bs := bs, ok := false, err := none, actions := [] } := by
        simp [BaseSubsystem.Start, h]
      have hn := ih bs h
      simp only [runActions, runStarts, LifeCall.actions, LifeCall.next, hS, List.nil_append,
        hn.1, true_and]
      simp [List.countP_cons, hn.2.1, hn.2.2]
    | stop r =>
      have hs : (bs.Stop r).bs.start ≠ 0 := by rw [Stop_start]; exact h
      have hn := ih (bs.Stop r).bs hs
      simp only [runActions, runStarts, LifeCall.actions, LifeCall.next, List.count_append,
        Stop_actions_no_start, hn.1, hn.2.1, hn.2.2, and_self]

/-- C13 (amended): over every sequence of `Start` and `Stop` calls on a
wrapper, each invocation of `OnStart` belongs to a `Start` call that either
returns `(true, nil)` or returns the error of the hook, and at most one
`Start` call returns true: the hook succeeds at most once, and only its
failures, which revert the attempt flag, are followed by further
invocations. -/
theorem OnStart_succeeds_at_most_once (bs : BaseSubsystem) (calls : List LifeCall) :
    (runActions bs calls).count Action.onStart
      = (runStarts bs calls).countP (fun r => r.1)
        + (runStarts bs calls).countP (fun r => r.2.isSome) ∧
    (runStarts bs calls).countP (fun r => r.1) ≤ 1 := by
  induction calls generalizing bs with
  | nil => simp [runActions, runStarts]
  | cons c rest ih =>
    cases c with
    | stop r =>
      have hn := ih (bs.Stop r).bs
      simp only [runActions, runStarts, LifeCall.actions, LifeCall.next, List.count_append,
        Stop_actions_no_start, Nat.zero_add]
      exact hn
    | start r =>
      by_cases h0 : bs.start = 0
      · by_cases h1 : bs.stopped = 1
        · have hS : bs.Start r
              = { bs := { bs with start := 1 }, ok := false, err := none, actions := [] } := by
            simp [BaseSubsystem.Start, h0, h1]
          have hz := run_of_start_ne_zero { bs with start := 1 } rest (by simp)
          simp only [runActions, runStarts, LifeCall.actions, LifeCall.next, hS,
            List.nil_append, hz.1]
          simp [List.countP_cons, hz.2.1, hz.2.2]
        · cases r with
          | some e =>
            have hS : bs.Start (some e)
                = { bs := bs, ok := false, err := some e, actions := [Action.onStart] } := by
              cases bs
              simp_all [BaseSubsystem.Start]
            have hn := ih bs
            simp only [runActions, runStarts, LifeCall.actions, LifeCall.next, hS]
            simp only [List.singleton_append, List.count_cons_self, List.countP_cons,
              Option.isSome_some, if_true, Bool.false_eq_true, if_false, Nat.add_zero]
            constructor
            · rw [hn.1]; omega
            · exact hn.2
          | none =>
            have hS : bs.Start none
                = { bs := { bs with start := 1, started := 1 }, ok := true, err := none,
                    actions := [Action.onStart] } := by
              simp [BaseSubsystem.Start, h0, h1]
            have hz := run_of_start_ne_zero { bs with start := 1, started := 1 } rest (by simp)
            simp only [runActions, runStarts, LifeCall.actions, LifeCall.next, hS]
            simp [List.countP_cons, hz.1, hz.2.1, hz.2.2]
      · have hz := run_of_start_ne_zero bs (LifeCall.start r :: rest) h0
        rw [hz.1, hz.2.1, hz.2.2]
        simp

open eventbus

theorem retryError_ne_empty (errs : List String) : retryError errs ≠ "" := by
  intro h
  have hl := congrArg String.length h
  simp only [retryError, String.length_append] at hl
  have h0 : "All attempts fail:".length = 18 := by decide
  have h1 : "".length = 0 := by decide
  omega

theorem retryLoop_all_fail {β : Type} (f : Nat → Except String β) (n k : Nat)
    (errs : List String) (h : ∀ j, j < n → ∃ e, f (k + j) = Except.error e) :
    ∃ all, retryLoop f n k errs = Except.error (retryError all) := by
  induction n generalizing k errs with
  | zero => exact ⟨errs, rfl⟩
  | succ n ih =>
    obtain ⟨e, he⟩ := h 0 (Nat.succ_pos n)
    rw [Nat.add_zero] at he
    simp only [retryLoop, he]
    apply ih
    intro j hj
    have := h (j + 1) (Nat.succ_lt_succ hj)
    rwa [show k + (j + 1) = k + 1 + j by omega] at this

theorem retryLoop_first_success {β : Type} (f : Nat → Except String β) (n k j : Nat)
    (errs : List String) (b : β) (hj : j < n)
    (hfail : ∀ i, i < j → ∃ e, f (k + i) = Except.error e)
    (hok : f (k + j) = Except.ok b) :
    retryLoop f n k errs = Except.ok b := by
  induction j generalizing n k errs with
  | zero =>
    obtain ⟨n, rfl⟩ : ∃ m, n = m + 1 := ⟨n - 1, by omega⟩
    rw [Nat.add_zero] at hok
    simp only [retryLoop, hok]
  | succ j ih =>
    obtain ⟨n, rfl⟩ : ∃ m, n = m + 1 := ⟨n - 1, by omega⟩
    obtain ⟨e, he⟩ := hfail 0 (Nat.succ_pos j)
    rw [Nat.add_zero] at he
    simp only [retryLoop, he]
    apply ih n (k + 1) (errs ++ [e]) (by omega)
    · intro i hi
      have := hfail (i + 1) (Nat.succ_lt_succ hi)
      rwa [show k + (i + 1) = k + 1 + i by omega] at this
    · rwa [show k + (j + 1) = k + 1 + j by omega] at hok

theorem retryLoop_ok {β : Type} (f : Nat → Except String β) (n k : Nat)
    (errs : List String) (b : β) (h : retryLoop f n k errs = Except.ok b) :
    ∃ j, j < k + n ∧ f j = Except.ok b := by
  induction n generalizing k errs with
  | zero => simp [retryLoop] at h
  | succ n ih =>
    simp only [retryLoop] at h
    cases hf : f k with
    | ok b2 =>
      rw [hf] at h
      exact ⟨k, by omega, by rw [hf]; exact h⟩
    | error e =>
      rw [hf] at h
      obtain ⟨j, hj, hb⟩ := ih (k + 1) _ h
      exact ⟨j, by omega, hb⟩

theorem resolveOnce_ok (s : Overseer) (subsystem : String) (r : Registered)
    (h : resolveOnce s subsystem = Except.ok r) :
    s.Subsystems subsystem = some r ∧ r.bs.IsRunning = true := by
  unfold resolveOnce at h
  cases hs : s.Subsystems subsystem with
  | none => rw [hs] at h; simp at h
  | some r2 =>
    rw [hs] at h
    dsimp only at h
    by_cases hr : r2.bs.IsRunning = true
    · simp only [hr, Bool.not_true, Bool.false_eq_true, if_false, Except.ok.injEq] at h
      subst h
      exact ⟨rfl, hr⟩
    · simp [hr] at h

theorem resolveOnce_error_of_not_running (s : Overseer) (subsystem : String)
    (h : ∀ r, s.Subsystems subsystem = some r → r.bs.IsRunning = false) :
    ∃ e, resolveOnce s subsystem = Except.error e := by
  unfold resolveOnce
  cases hs : s.Subsystems subsystem with
  | none => exact ⟨_, rfl⟩
  | some r => simp [h r hs]

theorem resolveOnce_ok_of_running (s : Overseer) (subsystem : String) (r : Registered)
    (hs : s.Subsystems subsystem = some r) (hr : r.bs.IsRunning = true) :
    resolveOnce s subsystem = Except.ok r := by
  simp [resolveOnce, hs, hr]

/-- C14: if at every attempt of the resolution the subsystem named in the
request is absent from the registry or registered but not running, the
handler does one thing only: it publishes to the correlation topic a
response with a non-empty error and nil data. It calls no `Call`. -/
theorem methodHandler_unresolved_publishes_error (faults : Nat → Payload → Option String)
    (view : Nat → Overseer) (attempts : Nat)
    (bus : EventBus Payload) (req : MethodRequest)
    (h : ∀ k, k < attempts → ∀ r, (view k).Subsystems req.Subsystem = some r →
      r.bs.IsRunning = false) :
    ∃ err, err ≠ "" ∧
      (methodHandler faults view attempts bus (Payload.request req)).events
        = [RouterEvent.publish PublishPoint.resolutionFailure req.ID
            { Request := MethodRequest.zero, Error := some err, Data := none }] ∧
      (methodHandler faults view attempts bus (Payload.request req)).calls = [] := by
  obtain ⟨all, hall⟩ := retryLoop_all_fail
    (fun k => resolveOnce (view k) req.Subsystem) attempts 0 []
    (fun j hj => by
      rw [Nat.zero_add]
      exact resolveOnce_error_of_not_running _ _ (h j hj))
  refine ⟨retryError all, retryError_ne_empty all, ?_, ?_⟩
  · simp only [methodHandler, retryDo, hall]
  · simp only [methodHandler, retryDo, hall, RouterRun.calls]
    rfl

theorem methodHandler_unresolved_publishes_error_witness :
    ∃ err, err ≠ "" ∧
      (methodHandler (fun _ _ => none) (fun _ => { Subsystems := fun _ => none }) 10
          (SetupMethodRouting New)
          (Payload.request ⟨"test", "nobody", "ping", "1f", []⟩)).events
        = [RouterEvent.publish PublishPoint.resolutionFailure "1f"
            { Request := MethodRequest.zero, Error := some err, Data := none }] ∧
      (methodHandler (fun _ _ => none) (fun _ => { Subsystems := fun _ => none }) 10
          (SetupMethodRouting New)
          (Payload.request ⟨"test", "nobody", "ping", "1f", []⟩)).calls = [] :=
  methodHandler_unresolved_publishes_error (fun _ _ => none)
    (fun _ => { Subsystems := fun _ => none }) 10
    (SetupMethodRouting New) ⟨"test", "nobody", "ping", "1f", []⟩
    (fun _ _ r hr => by simp at hr)

/-- The resolution succeeds with the subsystem that the first successful
attempt finds registered and running. -/
theorem retryDo_resolves (view : Nat → Overseer) (attempts k : Nat) (subsystem : String)
    (reg : Registered) (hk : k < attempts)
    (hbefore : ∀ j, j < k → ∀ r, (view j).Subsystems subsystem = some r →
      r.bs.IsRunning = false)
    (hreg : (view k).Subsystems subsystem = some reg)
    (hrun : reg.bs.IsRunning = true) :
    retryDo attempts (fun k => resolveOnce (view k) subsystem) = Except.ok reg := by
  unfold retryDo
  apply retryLoop_first_success _ attempts 0 k [] reg hk
  · intro i hi
    rw [Nat.zero_add]
    exact resolveOnce_error_of_not_running _ _ (hbefore i hi)
  · rw [Nat.zero_add]
    exact resolveOnce_ok_of_running _ _ reg hreg hrun

/-- C15: if the attempt number `k` of the resolution is the first that finds
the subsystem registered and running, the handler calls its `Call`. When
`Call` returns `(data, err)`, the handler publishes to the correlation topic
the request with `err` and `data` unchanged, first; this is its only
response unless a synchronous subscriber of the correlation topic panics
during that `Publish`, which the deferred function answers with a second
response carrying the text of the panic. When `Call` panics with a value of
text `v`, the only response has the error `v` and nil data. The panic of
`Call` does not leave the goroutine: the run ends with an unrecovered panic
only if publishing the recovered response itself panics. -/
theorem methodHandler_response_of_call (faults : Nat → Payload → Option String)
    (view : Nat → Overseer) (attempts k : Nat)
    (bus : EventBus Payload) (req : MethodRequest) (reg : Registered)
    (hk : k < attempts)
    (hbefore : ∀ j, j < k → ∀ r, (view j).Subsystems req.Subsystem = some r →
      r.bs.IsRunning = false)
    (hreg : (view k).Subsystems req.Subsystem = some reg)
    (hrun : reg.bs.IsRunning = true) :
    (∀ data err, reg.Call req.Method req.Data = CallOutcome.returns data err →
      (methodHandler faults view attempts bus (Payload.request req)).events
        = [RouterEvent.call req.Subsystem req.Method req.Data,
           RouterEvent.publish PublishPoint.completion req.ID
            { Request := req, Error := err, Data := data }]
          ++ (match (PublishFaulting faults bus req.ID (some (Payload.response
                { Request := req, Error := err, Data := data }))).panic with
              | none => []
              | some v => [RouterEvent.publish PublishPoint.recoveredFault req.ID
                  { Request := MethodRequest.zero, Error := some v, Data := none }]) ∧
      (methodHandler faults view attempts bus (Payload.request req)).published.head?
        = some (PublishPoint.completion, req.ID,
            { Request := req, Error := err, Data := data }) ∧
      ((PublishFaulting faults bus req.ID (some (Payload.response
            { Request := req, Error := err, Data := data }))).panic = none →
        (methodHandler faults view attempts bus (Payload.request req)).events
          = [RouterEvent.call req.Subsystem req.Method req.Data,
             RouterEvent.publish PublishPoint.completion req.ID
              { Request := req, Error := err, Data := data }] ∧
        (methodHandler faults view attempts bus (Payload.request req)).crashed = false)) ∧
    (∀ v, reg.Call req.Method req.Data = CallOutcome.panics v →
      (methodHandler faults view attempts bus (Payload.request req)).events
        = [RouterEvent.call req.Subsystem req.Method req.Data,
           RouterEvent.publish PublishPoint.recoveredFault req.ID
            { Request := MethodRequest.zero, Error := some v, Data := none }] ∧
      (methodHandler faults view attempts bus (Payload.request req)).crashed
        = (PublishFaulting faults bus req.ID (some (Payload.response
            { Request := MethodRequest.zero, Error := some v, Data := none }))).panic.isSome)
    := by
  have hres := retryDo_resolves view attempts k req.Subsystem reg hk hbefore hreg hrun
  constructor
  · intro data err hc
    cases hp : (PublishFaulting faults bus req.ID (some (Payload.response
        { Request := req, Error := err, Data := data }))).panic with
    | none => simp [methodHandler, hres, hc, hp, RouterRun.published]
    | some v => simp [methodHandler, hres, hc, hp, RouterRun.published]
  · intro v hc
    simp [methodHandler, hres, hc]

theorem methodHandler_response_of_call_witness :
    (methodHandler (fun _ _ => none) (fun _ => testOverseer (fun _ => (none, none))) 10
        (SetupMethodRouting New)
        (Payload.request ⟨"test", "subsystem1", "ping", "1f", [some (Val.str "hello")]⟩)).events
      = [RouterEvent.call "subsystem1" "ping" [some (Val.str "hello")],
         RouterEvent.publish PublishPoint.completion "1f"
          { Request := ⟨"test", "subsystem1", "ping", "1f", [some (Val.str "hello")]⟩,
            Error := none, Data := some (Val.str "pong") }] ∧
    (methodHandler (fun _ _ => none) (fun _ => testOverseer (fun _ => (none, none))) 10
        (SetupMethodRouting New)
        (Payload.request ⟨"test", "subsystem1", "ping", "1f", [some (Val.str "hello")]⟩)).crashed
      = false :=
  ((methodHandler_response_of_call (fun _ _ => none)
    (fun _ => testOverseer (fun _ => (none, none))) 10 0
    (SetupMethodRouting New) ⟨"test", "subsystem1", "ping", "1f", [some (Val.str "hello")]⟩
    { bs := startedSubsystem "subsystem1", Call := Subsystem1.Call }
    (by decide) (fun j hj => absurd hj (Nat.not_lt_zero j)) rfl (by decide)).1
    (some (Val.str "pong")) none rfl).2.2 (by decide)

/-- C16 (counterexample): a request to a running subsystem whose `Call` never
returns gets no response; and when a synchronous subscriber of the
correlation topic panics on the response of a `Call` that returned, the
deferred function publishes a second response. -/
theorem methodHandler_publishes_none_or_twice :
    (methodHandler (fun _ _ => none)
        (fun _ => Overseer.RegisterSubsystem { Subsystems := fun _ => none }
          { bs := startedSubsystem "waiter", Call := fun _ _ => CallOutcome.blocks })
        10 (SetupMethodRouting New)
        (Payload.request ⟨"test", "waiter", "ping", "1f", []⟩)).published = [] ∧
    (methodHandler (fun cb _ => if cb = 5 then some "boom" else none)
        (fun _ => testOverseer (fun _ => (none, none))) 10
        (Subscribe (SetupMethodRouting New) "1f" 5).1
        (Payload.request ⟨"test", "subsystem1", "ping", "1f", []⟩)).published
      = [(PublishPoint.completion, "1f",
          { Request := ⟨"test", "subsystem1", "ping", "1f", []⟩,
            Error := none, Data := some (Val.str "pong") }),
         (PublishPoint.recoveredFault, "1f",
          { Request := MethodRequest.zero, Error := some "boom", Data := none })] := by
  constructor <;> decide

/-- C16 (amended): for every request the handler is called with, if the `Call`
of the subsystem it resolves to returns or panics with a value, and no
synchronous subscriber of the correlation topic panics while a response is
published, the handler publishes exactly one response, on the correlation
topic of the request, at exactly one of its three places, which is the failed
resolution when no `Call` was made, and the run leaves no panic unrecovered.
When the `Call` of the resolved subsystem never returns, or ends its
goroutine with nothing to recover, the handler publishes no response. -/
theorem methodHandler_publishes_exactly_once (faults : Nat → Payload → Option String)
    (view : Nat → Overseer) (attempts : Nat)
    (bus : EventBus Payload) (req : MethodRequest) :
    ((∀ k reg, (view k).Subsystems req.Subsystem = some reg →
        reg.Call req.Method req.Data ≠ CallOutcome.exits ∧
        reg.Call req.Method req.Data ≠ CallOutcome.blocks) →
      (∀ resp, (PublishFaulting faults bus req.ID
        (some (Payload.response resp))).panic = none) →
      ∃ point resp,
        (methodHandler faults view attempts bus (Payload.request req)).published
          = [(point, req.ID, resp)] ∧
        (methodHandler faults view attempts bus (Payload.request req)).published.length = 1 ∧
        (point = PublishPoint.resolutionFailure ↔
          (methodHandler faults view attempts bus (Payload.request req)).calls = []) ∧
        (methodHandler faults view attempts bus (Payload.request req)).crashed = false) ∧
    (∀ reg, retryDo attempts (fun k => resolveOnce (view k) req.Subsystem) = Except.ok reg →
      (reg.Call req.Method req.Data = CallOutcome.exits ∨
        reg.Call req.Method req.Data = CallOutcome.blocks) →
      (methodHandler faults view attempts bus (Payload.request req)).published = []) := by
  constructor
  · intro hcall hpub
    unfold methodHandler
    dsimp only
    cases hres : retryDo attempts (fun k => resolveOnce (view k) req.Subsystem) with
    | error err =>
      exact ⟨PublishPoint.resolutionFailure, _, rfl, rfl, by simp [RouterRun.calls],
        by simp [hpub]⟩
    | ok reg =>
      obtain ⟨k, _, hk⟩ := retryLoop_ok _ _ _ _ _ hres
      have hreg := (resolveOnce_ok _ _ _ hk).1
      have hne := hcall k reg hreg
      dsimp only
      cases hc : reg.Call req.Method req.Data with
      | returns data err =>
        simp only [hpub]
        exact ⟨PublishPoint.completion, _, rfl, rfl, by simp [RouterRun.calls], trivial⟩
      | panics v =>
        exact ⟨PublishPoint.recoveredFault, _, rfl, rfl, by simp [RouterRun.calls],
          by simp [hpub]⟩
      | exits => exact absurd hc hne.1
      | blocks => exact absurd hc hne.2
  · intro reg hres hc
    rcases hc with hc | hc
    · simp [methodHandler, hres, hc, RouterRun.published]
    · simp [methodHandler, hres, hc, RouterRun.published]

theorem methodHandler_publishes_exactly_once_witness :
    ∃ point resp,
      (methodHandler (fun _ _ => none) (fun _ => testOverseer (fun _ => (none, none))) 10
          (SetupMethodRouting New)
          (Payload.request ⟨"test", "subsystem1", "ping", "1f", []⟩)).published
        = [(point, "1f", resp)] ∧
      (methodHandler (fun _ _ => none) (fun _ => testOverseer (fun _ => (none, none))) 10
          (SetupMethodRouting New)
          (Payload.request ⟨"test", "subsystem1", "ping", "1f", []⟩)).published.length = 1 ∧
      (point = PublishPoint.resolutionFailure ↔
        (methodHandler (fun _ _ => none) (fun _ => testOverseer (fun _ => (none, none))) 10
          (SetupMethodRouting New)
          (Payload.request ⟨"test", "subsystem1", "ping", "1f", []⟩)).calls = []) ∧
      (methodHandler (fun _ _ => none) (fun _ => testOverseer (fun _ => (none, none))) 10
          (SetupMethodRouting New)
          (Payload.request ⟨"test", "subsystem1", "ping", "1f", []⟩)).crashed = false :=
  (methodHandler_publishes_exactly_once (fun _ _ => none)
    (fun _ => testOverseer (fun _ => (none, none))) 10 (SetupMethodRouting New)
    ⟨"test", "subsystem1", "ping", "1f", []⟩).1
    (fun _ reg hreg => by
      have e : reg = { bs := startedSubsystem "subsystem1", Call := Subsystem1.Call } := by
        simpa [testOverseer, Overseer.RegisterSubsystem, startedSubsystem, NewBaseSubsystem,
          BaseSubsystem.Start] using hreg.symm
      subst e
      exact ⟨by decide, by decide⟩)
    (fun _ => PublishFaulting_no_faults _ _ _ _ (fun _ _ => rfl))

/-- C18 (counterexample): the request "process_active_leaves_update" to the
running subsystem2 is answered with a response whose error and data are both
nil. -/
theorem methodHandler_publishes_empty_response :
    (methodHandler (fun _ _ => none) (fun _ => testOverseer (fun _ => (none, none))) 10
        (SetupMethodRouting New)
        (Payload.request
          ⟨"test", "subsystem2", "process_active_leaves_update", "1f", []⟩)).published
      = [(PublishPoint.completion, "1f",
          { Request := ⟨"test", "subsystem2", "process_active_leaves_update", "1f", []⟩,
            Error := none, Data := none })] := by
  decide

/-- C18 (amended): a response published after a failed resolution or a
recovered fault has an error and nil data; a response published after `Call`
returned carries the request and exactly the error and the data that the
`Call` of a registered subsystem returned. -/
theorem methodHandler_response_fields (faults : Nat → Payload → Option String)
    (view : Nat → Overseer) (attempts : Nat)
    (bus : EventBus Payload) (req : MethodRequest) (point : PublishPoint) (topic : String)
    (resp : MethodResponse)
    (h : (point, topic, resp) ∈
      (methodHandler faults view attempts bus (Payload.request req)).published) :
    (point ≠ PublishPoint.completion → resp.Error ≠ none ∧ resp.Data = none) ∧
    (point = PublishPoint.completion →
      resp.Request = req ∧
      ∃ k reg, (view k).Subsystems req.Subsystem = some reg ∧
        reg.bs.IsRunning = true ∧
        reg.Call req.Method req.Data = CallOutcome.returns resp.Data resp.Error) := by
  unfold methodHandler at h
  dsimp only at h
  cases hres : retryDo attempts (fun k => resolveOnce (view k) req.Subsystem) with
  | error err =>
    rw [hres] at h
    simp only [RouterRun.published, List.filterMap_cons, List.filterMap_nil,
      List.mem_singleton, Prod.mk.injEq] at h
    obtain ⟨hp, _, hr⟩ := h
    subst hp hr
    simp
  | ok reg =>
    rw [hres] at h
    obtain ⟨k, _, hk⟩ := retryLoop_ok _ _ _ _ _ hres
    have hreg := resolveOnce_ok _ _ _ hk
    dsimp only at h
    cases hc : reg.Call req.Method req.Data with
    | returns data err =>
      rw [hc] at h
      dsimp only at h
      cases hp : (PublishFaulting faults bus req.ID (some (Payload.response
          { Request := req, Error := err, Data := data }))).panic with
      | none =>
        rw [hp] at h
        simp only [RouterRun.published, List.filterMap_cons, List.filterMap_nil,
          List.mem_singleton, Prod.mk.injEq] at h
        obtain ⟨hp, _, hr⟩ := h
        subst hp hr
        exact ⟨fun hne => absurd rfl hne, fun _ => ⟨rfl, k, reg, hreg.1, hreg.2, hc⟩⟩
      | some v =>
        rw [hp] at h
        simp only [RouterRun.published, List.filterMap_cons, List.filterMap_nil,
          List.mem_cons, Prod.mk.injEq, List.mem_singleton, List.not_mem_nil, or_false] at h
        rcases h with ⟨hp, _, hr⟩ | ⟨hp, _, hr⟩
        · subst hp hr
          exact ⟨fun hne => absurd rfl hne, fun _ => ⟨rfl, k, reg, hreg.1, hreg.2, hc⟩⟩
        · subst hp hr
          simp
    | panics v =>
      rw [hc] at h
      simp only [RouterRun.published, List.filterMap_cons, List.filterMap_nil,
        List.mem_singleton, Prod.mk.injEq] at h
      obtain ⟨hp, _, hr⟩ := h
      subst hp hr
      simp
    | exits =>
      rw [hc] at h
      simp [RouterRun.published] at h
    | blocks =>
      rw [hc] at h
      simp [RouterRun.published] at h

theorem methodHandler_response_fields_witness :
    ∃ (_ : Nat) (reg : Registered),
      (testOverseer (fun _ => (none, none))).Subsystems "subsystem2" = some reg ∧
      reg.bs.IsRunning = true ∧
      reg.Call "process_active_leaves_update" [] = CallOutcome.returns none none :=
  ((methodHandler_response_fields (fun _ _ => none)
    (fun _ => testOverseer (fun _ => (none, none))) 10
    (SetupMethodRouting New) ⟨"test", "subsystem2", "process_active_leaves_update", "1f", []⟩
    PublishPoint.completion "1f"
    ⟨⟨"test", "subsystem2", "process_active_leaves_update", "1f", []⟩, none, none⟩
    (by decide)).2 rfl).2

/-- A routed "ping" to the running subsystem1 of `testOverseer` returns
`("pong", nil)`, on the bus of `NewOverseer` and on that bus while another
call waits on its own correlation topic. -/
theorem Ping_routed (faults : Nat → Payload → Option String)
    (ping : String → Any Val × Option String) (attempts : Nat)
    (nonce other : String) (ch ch2 : Nat) (owner message : String)
    (hattempts : 0 < attempts) (hnonce : nonce ≠ "method") (hother : other ≠ nonce)
    (hother2 : other ≠ "method") :
    Subsystem1MethodsInstance.Ping faults (fun _ => testOverseer ping) attempts (some nonce) ch
        (SetupMethodRouting New) owner message
      = some (some (Val.str "pong"), none) ∧
    Subsystem1MethodsInstance.Ping faults (fun _ => testOverseer ping) attempts (some nonce) ch
        (AwaitTopic (SetupMethodRouting New) other ch2) owner message
      = some (some (Val.str "pong"), none) := by
  obtain ⟨n, rfl⟩ : ∃ m, attempts = m + 1 := ⟨attempts - 1, by omega⟩
  have hm : ¬ ("method" = nonce) := fun e => hnonce e.symm
  have ho : ¬ (nonce = other) := fun e => hother e.symm
  have ho2 : ¬ ("method" = other) := fun e => hother2 e.symm
  constructor
  · simp [Subsystem1MethodsInstance.Ping, SubsystemMethod, AwaitTopic, SetupMethodRouting,
      SubscribeAsync, SubscribeOnceAsync, doSubscribe, New, EventBus.slice, EventBus.store,
      EventBus.delete, PublishFaulting, publishLoopFaulting, removeHandler, invocations,
      doPublishAsync, doPublish, runMiddleware, runInvocations, routerCb, awaitCb,
      methodHandler, retryDo, retryLoop, resolveOnce, testOverseer,
      Overseer.RegisterSubsystem, startedSubsystem, NewBaseSubsystem, BaseSubsystem.Start,
      BaseSubsystem.IsRunning, Subsystem1.Call, sentOn, unwrapResponse, hnonce, hm]
  · simp [Subsystem1MethodsInstance.Ping, SubsystemMethod, AwaitTopic, SetupMethodRouting,
      SubscribeAsync, SubscribeOnceAsync, doSubscribe, New, EventBus.slice, EventBus.store,
      EventBus.delete, PublishFaulting, publishLoopFaulting, removeHandler, invocations,
      doPublishAsync, doPublish, runMiddleware, runInvocations, routerCb, awaitCb,
      methodHandler, retryDo, retryLoop, resolveOnce, testOverseer,
      Overseer.RegisterSubsystem, startedSubsystem, NewBaseSubsystem, BaseSubsystem.Start,
      BaseSubsystem.IsRunning, Subsystem1.Call, sentOn, unwrapResponse, hnonce, hm, hother,
      ho, hother2, ho2]

/-- C17: the bus is the one `NewOverseer` sets up on a new bus, subsystem1 and
subsystem2 are registered and running, and `ping`, the `Ping` that subsystem2
reaches through its library, is the routed call itself: made with its own
correlation topic `nonce2` while the outer call waits on `nonce1`, it returns
what that call returns. Then for every message `Ping` returns
`("pong", nil)`, and so does `PingSubsystem1`. -/
theorem Ping_and_PingSubsystem1_return_pong (faults : Nat → Payload → Option String)
    (ping : String → Any Val × Option String)
    (attempts : Nat) (nonce1 nonce2 : String) (ch1 ch2 : Nat) (owner message : String)
    (hattempts : 0 < attempts) (h1 : nonce1 ≠ "method") (h2 : nonce2 ≠ "method")
    (h12 : nonce1 ≠ nonce2)
    (hping : ∀ msg, Subsystem1MethodsInstance.Ping faults (fun _ => testOverseer ping) attempts
        (some nonce2) ch2 (AwaitTopic (SetupMethodRouting New) nonce1 ch1) "" msg
      = some (ping msg)) :
    Subsystem1MethodsInstance.Ping faults (fun _ => testOverseer ping) attempts (some nonce1)
        ch1 (SetupMethodRouting New) owner message
      = some (some (Val.str "pong"), none) ∧
    Subsystem2MethodsInstance.PingSubsystem1 faults (fun _ => testOverseer ping) attempts
        (some nonce1) ch1 (SetupMethodRouting New) owner message
      = some (some (Val.str "pong"), none) := by
  have hp : ping message = (some (Val.str "pong"), none) := by
    have hr := (Ping_routed faults ping attempts nonce2 nonce1 ch2 ch1 "" message hattempts h2
      h12 h1).2
    rw [hping message] at hr
    exact Option.some.inj hr
  refine ⟨(Ping_routed faults ping attempts nonce1 nonce2 ch1 ch2 owner message hattempts h1
    (Ne.symm h12) h2).1, ?_⟩
  obtain ⟨n, rfl⟩ : ∃ m, attempts = m + 1 := ⟨attempts - 1, by omega⟩
  have hm : ¬ ("method" = nonce1) := fun e => h1 e.symm
  simp [Subsystem2MethodsInstance.PingSubsystem1, SubsystemMethod, AwaitTopic,
    SetupMethodRouting, SubscribeAsync, SubscribeOnceAsync, doSubscribe, New, EventBus.slice,
    EventBus.store, EventBus.delete, PublishFaulting, publishLoopFaulting, removeHandler,
    invocations, doPublishAsync, doPublish, runMiddleware, runInvocations, routerCb, awaitCb,
    methodHandler, retryDo, retryLoop, resolveOnce, testOverseer, Overseer.RegisterSubsystem,
    startedSubsystem, NewBaseSubsystem, BaseSubsystem.Start, BaseSubsystem.IsRunning,
    Subsystem2.Call, sentOn, unwrapResponse, h1, hm, hp]

theorem Ping_and_PingSubsystem1_return_pong_witness :
    Subsystem1MethodsInstance.Ping (fun _ _ => none)
        (fun _ => testOverseer (fun _ => (some (Val.str "pong"), none))) 10 (some "1f") 0
        (SetupMethodRouting New) "test" "hello"
      = some (some (Val.str "pong"), none) ∧
    Subsystem2MethodsInstance.PingSubsystem1 (fun _ _ => none)
        (fun _ => testOverseer (fun _ => (some (Val.str "pong"), none))) 10 (some "1f") 0
        (SetupMethodRouting New) "test" "hello"
      = some (some (Val.str "pong"), none) :=
  Ping_and_PingSubsystem1_return_pong (fun _ _ => none)
    (fun _ => (some (Val.str "pong"), none)) 10 "1f" "2a"
    0 1 "test" "hello" (by decide) (by decide) (by decide) (by decide)
    (fun msg => (Ping_routed _ _ 10 "2a" "1f" 1 0 "" msg (by decide) (by decide) (by decide)
      (by decide)).2)

theorem Start_ok_iff_started (bs : BaseSubsystem) (r : Option String) :
    ((bs.Start r).bs.started = 1 ↔ bs.started = 1 ∨ (bs.Start r).ok = true) := by
  unfold BaseSubsystem.Start
  split
  · dsimp only
    split
    · simp
    · cases r <;> simp
  · simp

theorem Stop_started (bs : BaseSubsystem) (r : Option String) :
    (bs.Stop r).bs.started = bs.started := by
  unfold BaseSubsystem.Stop
  split <;> rfl

theorem Stop_stopped_ne_zero (bs : BaseSubsystem) (r : Option String) :
    (bs.Stop r).bs.stopped ≠ 0 := by
  unfold BaseSubsystem.Stop
  split
  · simp
  · assumption

/-- The flag `started` is set exactly when it was set before or one of the
`Start` calls returned true. -/
theorem runCalls_started (bs : BaseSubsystem) (calls : List LifeCall) :
    (runCalls bs calls).started = 1 ↔
      bs.started = 1 ∨ (runStarts bs calls).any (fun r => r.1) = true := by
  induction calls generalizing bs with
  | nil => simp [runCalls, runStarts]
  | cons c rest ih =>
    have e : runCalls bs (c :: rest) = runCalls (LifeCall.next bs c) rest := rfl
    rw [e, ih]
    cases c with
    | start r =>
      simp only [LifeCall.next, runStarts, List.any_cons, Bool.or_eq_true]
      rw [Start_ok_iff_started]
      tauto
    | stop r =>
      simp only [LifeCall.next, runStarts]
      rw [Stop_started]

/-- The flag `stopped` is still `0` exactly when it was `0` before and no
`Stop` call was made. -/
theorem runCalls_stopped_zero (bs : BaseSubsystem) (calls : List LifeCall) :
    (runCalls bs calls).stopped = 0 ↔
      bs.stopped = 0 ∧ calls.any LifeCall.isStop = false := by
  induction calls generalizing bs with
  | nil => simp [runCalls]
  | cons c rest ih =>
    have e : runCalls bs (c :: rest) = runCalls (LifeCall.next bs c) rest := rfl
    rw [e, ih]
    cases c with
    | start r =>
      simp only [LifeCall.next, List.any_cons, LifeCall.isStop, Bool.false_or]
      rw [Start_stopped]
    | stop r =>
      simp only [LifeCall.next, List.any_cons, LifeCall.isStop, Bool.true_or]
      have := Stop_stopped_ne_zero bs r
      simp [this]

theorem Start_ok_err (bs : BaseSubsystem) (r : Option String) :
    (bs.Start r).ok = true → (bs.Start r).err = none := by
  unfold BaseSubsystem.Start
  split
  · dsimp only
    split
    · simp
    · cases r <;> simp
  · simp

theorem runStarts_any_ok (bs : BaseSubsystem) (calls : List LifeCall) :
    (runStarts bs calls).any (fun r => r.1 && r.2.isNone)
      = (runStarts bs calls).any (fun r => r.1) := by
  induction calls generalizing bs with
  | nil => rfl
  | cons c rest ih =>
    cases c with
    | start r =>
      simp only [runStarts, List.any_cons, ih]
      cases hok : (bs.Start r).ok with
      | false => simp
      | true => simp [Start_ok_err bs r hok]
    | stop r =>
      simp only [runStarts]
      exact ih _

/-- C22: in every state reached from a new wrapper by `Start` and `Stop` calls,
`IsRunning` is the test `started == 1 && stopped == 0`, and it is true exactly
when one of the `Start` calls has returned `(true, nil)` and no `Stop` call
has been made. After a `Stop` call `IsRunning` is false in every later
state. -/
theorem IsRunning_iff_started_and_not_stopped (name : String)
    (calls later : List LifeCall) (onStop : Option String) :
    (runCalls (NewBaseSubsystem name) calls).IsRunning
      = ((runCalls (NewBaseSubsystem name) calls).started == 1
          && (runCalls (NewBaseSubsystem name) calls).stopped == 0) ∧
    ((runCalls (NewBaseSubsystem name) calls).IsRunning = true ↔
      (runStarts (NewBaseSubsystem name) calls).any (fun r => r.1 && r.2.isNone) = true ∧
      calls.any LifeCall.isStop = false) ∧
    (runCalls ((runCalls (NewBaseSubsystem name) calls).Stop onStop).bs later).IsRunning
      = false := by
  refine ⟨rfl, ?_, ?_⟩
  · rw [runStarts_any_ok]
    have h1 := runCalls_started (NewBaseSubsystem name) calls
    have h2 := runCalls_stopped_zero (NewBaseSubsystem name) calls
    have e1 : (NewBaseSubsystem name).started = 1 ↔ False := by simp [NewBaseSubsystem]
    have e2 : (NewBaseSubsystem name).stopped = 0 ↔ True := by simp [NewBaseSubsystem]
    rw [e1, false_or] at h1
    rw [e2, true_and] at h2
    simp only [BaseSubsystem.IsRunning, Bool.and_eq_true, beq_iff_eq]
    rw [h1, h2]
  · have hne : ¬ (runCalls ((runCalls (NewBaseSubsystem name) calls).Stop onStop).bs
        later).stopped = 0 := by
      rw [runCalls_stopped_zero]
      intro h
      exact Stop_stopped_ne_zero _ _ h.1
    simp [BaseSubsystem.IsRunning, hne]

/-- On a bus without middleware, `Publish(topic, nil)` calls no callback
itself, every goroutine it starts ends without calling its callback, and so
no handler of the topic is invoked; the registry it leaves is the one any
other payload would leave, so a once-handler it removes is removed without
having run. The hooks of the two subsystems publish nil on their lifecycle
topics ("subsystem1:start" and so on) and therefore invoke no handler. -/
theorem Publish_nil_invokes_no_handler {α : Type} (bus : EventBus α) (topic : String)
    (data : Any α) (fn : Nat) (eventBus : EventBus Payload)
    (hmw : bus.middleware = []) (hbus : eventBus.middleware = []) :
    (∀ cb v, Effect.call cb v ∉ (Publish bus topic none).2) ∧
    (∀ h : eventHandler, doPublish bus h topic none = [] ∧
      doPublishAsync (Publish bus topic none).1 h topic none = []) ∧
    invocations (Publish bus topic none).1 (Publish bus topic none).2 = [] ∧
    (Publish bus topic none).1 = (Publish bus topic data).1 ∧
    (HasCallback bus topic = false →
      (Publish (SubscribeOnce bus topic fn).1 topic none).1.handlers topic = none ∧
      (Publish (SubscribeOnceAsync bus topic fn).1 topic none).1.handlers topic = none) ∧
    "subsystem1:" ++ StartEvent = "subsystem1:start" ∧
    invocations (Subsystem1.OnStart eventBus).bus (Subsystem1.OnStart eventBus).effects = [] ∧
    invocations (Subsystem1.OnStop eventBus).bus (Subsystem1.OnStop eventBus).effects = [] ∧
    invocations (Subsystem2.OnStart eventBus).bus (Subsystem2.OnStart eventBus).effects = [] ∧
    invocations (Subsystem2.OnStop eventBus).bus (Subsystem2.OnStop eventBus).effects = [] := by
  have hinv : ∀ {β : Type} (b : EventBus β) (t : String), b.middleware = [] →
      invocations (Publish b t none).1 (Publish b t none).2 = [] := by
    intro β b t hb
    rw [invocations_Publish, hb]
    rfl
  refine ⟨?_, ?_, hinv bus topic hmw, Publish_bus_payload bus topic none data, ?_, by decide,
    hinv eventBus _ hbus, hinv eventBus _ hbus, hinv eventBus _ hbus, hinv eventBus _ hbus⟩
  · intro cb v hmem
    rw [Publish_nil_effects bus topic hmw] at hmem
    simp at hmem
  · intro h
    simp [doPublishAsync, doPublish, Publish_middleware, hmw, runMiddleware]
  · intro hc
    exact ⟨(Publish_lone_once_handler bus topic fn false none none hc).1,
      (Publish_lone_once_handler bus topic fn true none none hc).1⟩

theorem Publish_nil_invokes_no_handler_witness :
    invocations
        (Publish (SubscribeAsync (Subscribe (New : EventBus Nat) "subsystem1:start" 1).1
          "subsystem1:start" 2 false).1 "subsystem1:start" none).1
        (Publish (SubscribeAsync (Subscribe (New : EventBus Nat) "subsystem1:start" 1).1
          "subsystem1:start" 2 false).1 "subsystem1:start" none).2 = [] ∧
    (Publish (SubscribeOnce (New : EventBus Nat) "subsystem1:start" 3).1 "subsystem1:start"
      none).1.handlers "subsystem1:start" = none ∧
    invocations
        (Subsystem1.OnStart (Subscribe (SetupMethodRouting New) "subsystem1:start" 7).1).bus
        (Subsystem1.OnStart (Subscribe (SetupMethodRouting New) "subsystem1:start" 7).1).effects
      = [] :=
  ⟨(Publish_nil_invokes_no_handler
      (SubscribeAsync (Subscribe (New : EventBus Nat) "subsystem1:start" 1).1
        "subsystem1:start" 2 false).1 "subsystem1:start" (some 5) 3
      (Subscribe (SetupMethodRouting New) "subsystem1:start" 7).1 rfl rfl).2.2.1,
   ((Publish_nil_invokes_no_handler (New : EventBus Nat) "subsystem1:start" (some 5) 3
      (Subscribe (SetupMethodRouting New) "subsystem1:start" 7).1 rfl rfl).2.2.2.2.1
      (by decide)).1,
   (Publish_nil_invokes_no_handler (New : EventBus Nat) "subsystem1:start" (some 5) 3
      (Subscribe (SetupMethodRouting New) "subsystem1:start" 7).1 rfl rfl).2.2.2.2.2.2.1⟩

end overseer
